/-
Verification of the ChromaViews color utilities.

Shallow embedding of `src/frontend/src/lib/colorUtils.ts` and
`src/frontend/src/lib/colorNames.ts`.  JavaScript numbers are modelled as
real numbers; `Math.sqrt` is `Real.sqrt` and `Math.pow x y` is `Real.rpow`.
Functions that throw (`hexToRgb`) or return `null`
(`findNearestColorName`) are modelled with `Option`.

The backend palette extractor and the backend `nameForHex` endpoint are
not part of the available sources; where a claim depends on them they are
modelled from the specification (see the doc comments starting with
"Modelled from the spec").
-/
import Mathlib

namespace ChromaViews

/-- Lab color: three real channels, from `interface LAB` in colorUtils.ts. -/
structure LAB where
  l : ℝ
  a : ℝ
  b : ℝ

/-- RGB color with 8-bit integer channels, from `interface RGB` in
colorUtils.ts (the parsed values produced by `hexToRgb` are integers). -/
structure RGB where
  r : ℕ
  g : ℕ
  b : ℕ
deriving DecidableEq, Repr

/-- One entry of the color-name table, from `interface ColorName` in
colorNames.ts. -/
structure ColorName where
  name : String
  hex : String
  rgb : ℕ × ℕ × ℕ
deriving DecidableEq, Repr

/-- Value of one hexadecimal digit, case-insensitive: the character class
`[a-f\d]` of the regex in `hexToRgb` together with the `i` flag. -/
def hexVal? (ch : Char) : Option ℕ :=
  if '0' ≤ ch ∧ ch ≤ '9' then some (ch.toNat - '0'.toNat)
  else if 'a' ≤ ch ∧ ch ≤ 'f' then some (ch.toNat - 'a'.toNat + 10)
  else if 'A' ≤ ch ∧ ch ≤ 'F' then some (ch.toNat - 'A'.toNat + 10)
  else none

/-- Drop the optional leading hash, the `#?` of the regex. -/
def stripHash : List Char → List Char
  | [] => []
  | c :: rest => if c = '#' then rest else c :: rest

/-- The regex match `/^#?([a-f\d]{2})([a-f\d]{2})([a-f\d]{2})$/i` followed by
`parseInt(_, 16)` on the three captured groups, shared by `hexToRgb` and
`findNearestColorName` in the source. -/
def parseHex (s : String) : Option (ℕ × ℕ × ℕ) :=
  match stripHash s.data with
  | [a1, a2, b1, b2, c1, c2] =>
    match hexVal? a1, hexVal? a2, hexVal? b1, hexVal? b2, hexVal? c1, hexVal? c2 with
    | some d1, some d2, some d3, some d4, some d5, some d6 =>
        some (16 * d1 + d2, 16 * d3 + d4, 16 * d5 + d6)
    | _, _, _, _, _, _ => none
  | _ => none

/-- `hexToRgb` from colorUtils.ts; the `throw` on a failed regex match is
modelled as `none`. -/
def hexToRgb (s : String) : Option RGB :=
  match parseHex s with
  | some (r, g, b) => some ⟨r, g, b⟩
  | none => none

/-- Hex digit character as produced by JavaScript `Number.toString(16)`
(lowercase). -/
def toHexDigit (n : ℕ) : Char :=
  if n < 10 then Char.ofNat ('0'.toNat + n) else Char.ofNat ('a'.toNat + n - 10)

/-- `x.toString(16)` for a byte value (the `rgbToHex` callers pass integer
channels in [0,255], for which `Math.round` is the identity and the output
has one or two digits). -/
def byteToHex (n : ℕ) : List Char :=
  if n < 16 then [toHexDigit n] else [toHexDigit (n / 16), toHexDigit (n % 16)]

/-- The padding step of `rgbToHex`: `hex.length === 1 ? '0' + hex : hex`. -/
def padTwo (l : List Char) : List Char :=
  if l.length = 1 then '0' :: l else l

/-- `rgbToHex` from colorUtils.ts on integer byte channels. -/
def rgbToHex (r g b : ℕ) : String :=
  ⟨'#' :: (padTwo (byteToHex r) ++ padTwo (byteToHex g) ++ padTwo (byteToHex b))⟩

/-- The `colorNames` table from colorNames.ts, in source order. -/
def colorNames : List ColorName := [
  ⟨"black", "#000000", (0, 0, 0)⟩,
  ⟨"white", "#FFFFFF", (255, 255, 255)⟩,
  ⟨"red", "#FF0000", (255, 0, 0)⟩,
  ⟨"green", "#008000", (0, 128, 0)⟩,
  ⟨"blue", "#0000FF", (0, 0, 255)⟩,
  ⟨"yellow", "#FFFF00", (255, 255, 0)⟩,
  ⟨"cyan", "#00FFFF", (0, 255, 255)⟩,
  ⟨"magenta", "#FF00FF", (255, 0, 255)⟩,
  ⟨"orange", "#FFA500", (255, 165, 0)⟩,
  ⟨"pink", "#FFC0CB", (255, 192, 203)⟩,
  ⟨"purple", "#800080", (128, 0, 128)⟩,
  ⟨"brown", "#A52A2A", (165, 42, 42)⟩,
  ⟨"gray", "#808080", (128, 128, 128)⟩,
  ⟨"grey", "#808080", (128, 128, 128)⟩,
  ⟨"steel blue", "#4682B4", (70, 130, 180)⟩,
  ⟨"mustard", "#FFDB58", (255, 219, 88)⟩,
  ⟨"navy", "#000080", (0, 0, 128)⟩,
  ⟨"teal", "#008080", (0, 128, 128)⟩,
  ⟨"olive", "#808000", (128, 128, 0)⟩,
  ⟨"maroon", "#800000", (128, 0, 0)⟩,
  ⟨"lime", "#00FF00", (0, 255, 0)⟩,
  ⟨"aqua", "#00FFFF", (0, 255, 255)⟩,
  ⟨"silver", "#C0C0C0", (192, 192, 192)⟩,
  ⟨"gold", "#FFD700", (255, 215, 0)⟩]

/-- `rgbToLab` from colorUtils.ts.  JavaScript numbers are modelled as real
numbers, `Math.pow` as `Real.rpow`. -/
noncomputable def rgbToLab (r g b : ℝ) : LAB :=
  let rn := r / 255
  let gn := g / 255
  let bn := b / 255
  let rn2 := if rn > 0.04045 then ((rn + 0.055) / 1.055) ^ (2.4 : ℝ) else rn / 12.92
  let gn2 := if gn > 0.04045 then ((gn + 0.055) / 1.055) ^ (2.4 : ℝ) else gn / 12.92
  let bn2 := if bn > 0.04045 then ((bn + 0.055) / 1.055) ^ (2.4 : ℝ) else bn / 12.92
  let x := (rn2 * 0.4124564 + gn2 * 0.3575761 + bn2 * 0.1804375) / 0.95047
  let y := (rn2 * 0.2126729 + gn2 * 0.7151522 + bn2 * 0.0721750) / 1.00000
  let z := (rn2 * 0.0193339 + gn2 * 0.1191920 + bn2 * 0.9503041) / 1.08883
  let fx := if x > 0.008856 then x ^ ((1 : ℝ) / 3) else 7.787 * x + 16 / 116
  let fy := if y > 0.008856 then y ^ ((1 : ℝ) / 3) else 7.787 * y + 16 / 116
  let fz := if z > 0.008856 then z ^ ((1 : ℝ) / 3) else 7.787 * z + 16 / 116
  ⟨116 * fy - 16, 500 * (fx - fy), 200 * (fy - fz)⟩

/-- `deltaE2000` from colorUtils.ts (the source's simplified ΔE variant). -/
noncomputable def deltaE2000 (lab1 lab2 : LAB) : ℝ :=
  let dL := lab1.l - lab2.l
  let da := lab1.a - lab2.a
  let db := lab1.b - lab2.b
  let c1 := Real.sqrt (lab1.a * lab1.a + lab1.b * lab1.b)
  let c2 := Real.sqrt (lab2.a * lab2.a + lab2.b * lab2.b)
  let dc := c1 - c2
  let dh := Real.sqrt (da * da + db * db - dc * dc)
  let sl := (1 : ℝ)
  let sc := 1 + 0.045 * c1
  let sh := 1 + 0.015 * c1
  Real.sqrt ((dL / sl) ^ 2 + (dc / sc) ^ 2 + (dh / sh) ^ 2)

/-- The Euclidean RGB distance computed in the loop body of
`findNearestColorName`. -/
noncomputable def rgbDist (r g b : ℕ) (c : ColorName) : ℝ :=
  Real.sqrt (((r : ℝ) - c.rgb.1) ^ 2 + ((g : ℝ) - c.rgb.2.1) ^ 2 +
    ((b : ℝ) - c.rgb.2.2) ^ 2)

/-- One iteration of the `for` loop of `findNearestColorName`: the
accumulator is `none` while `nearest` is still `null` and `minDist` is
`Infinity` (any real distance is below `Infinity`, so the first entry always
replaces it). -/
noncomputable def nearestStep (r g b : ℕ) (acc : Option (ColorName × ℝ))
    (c : ColorName) : Option (ColorName × ℝ) :=
  let dist := rgbDist r g b c
  match acc with
  | none => some (c, dist)
  | some (best, minDist) =>
      if dist < minDist then some (c, dist) else some (best, minDist)

/-- `findNearestColorName` from colorNames.ts. -/
noncomputable def findNearestColorName (s : String) : Option ColorName :=
  match parseHex s with
  | none => none
  | some (r, g, b) => (colorNames.foldl (nearestStep r g b) none).map Prod.fst

/-- Squared integer RGB distance, used to evaluate the loop of
`findNearestColorName` on concrete inputs (the square root is strictly
monotone, so replacing each distance by its square preserves every
comparison made by the loop). -/
def sqDist (r g b : ℕ) (c : ColorName) : ℤ :=
  ((r : ℤ) - c.rgb.1) ^ 2 + ((g : ℤ) - c.rgb.2.1) ^ 2 + ((b : ℤ) - c.rgb.2.2) ^ 2

/-- The loop of `findNearestColorName` with squared integer distances. -/
def nearestStepSq (r g b : ℕ) (acc : Option (ColorName × ℤ))
    (c : ColorName) : Option (ColorName × ℤ) :=
  let dist := sqDist r g b c
  match acc with
  | none => some (c, dist)
  | some (best, minDist) =>
      if dist < minDist then some (c, dist) else some (best, minDist)

/-- Computable twin of `findNearestColorName`. -/
def findNearestSq (r g b : ℕ) : Option ColorName :=
  (colorNames.foldl (nearestStepSq r g b) none).map Prod.fst

/-- Spec wording of 4.1: sRGB gamma decoding, "piecewise linear below a
0.04045 channel threshold, power curve above". -/
noncomputable def srgbDecode (c : ℝ) : ℝ :=
  if c > 0.04045 then ((c + 0.055) / 1.055) ^ (2.4 : ℝ) else c / 12.92

/-- Spec wording of 4.1: the "standard piecewise cube-root/linear curve with
breakpoint at 0.008856" of the XYZ-to-Lab step. -/
noncomputable def labF (t : ℝ) : ℝ :=
  if t > 0.008856 then t ^ ((1 : ℝ) / 3) else 7.787 * t + 16 / 116

/-- X coordinate of CIE XYZ under the D65 white point. -/
noncomputable def xyzX (r g b : ℝ) : ℝ :=
  (srgbDecode (r / 255) * 0.4124564 + srgbDecode (g / 255) * 0.3575761 +
    srgbDecode (b / 255) * 0.1804375) / 0.95047

/-- Y coordinate of CIE XYZ under the D65 white point. -/
noncomputable def xyzY (r g b : ℝ) : ℝ :=
  (srgbDecode (r / 255) * 0.2126729 + srgbDecode (g / 255) * 0.7151522 +
    srgbDecode (b / 255) * 0.0721750) / 1.00000

/-- Z coordinate of CIE XYZ under the D65 white point. -/
noncomputable def xyzZ (r g b : ℝ) : ℝ :=
  (srgbDecode (r / 255) * 0.0193339 + srgbDecode (g / 255) * 0.1191920 +
    srgbDecode (b / 255) * 0.9503041) / 1.08883

/-- The spec's staged description of `rgbToLab` (4.1): gamma decoding, the
fixed D65 matrix, then the piecewise cube-root/linear curve. -/
noncomputable def rgbToLabSpec (r g b : ℝ) : LAB :=
  ⟨116 * labF (xyzY r g b) - 16,
   500 * (labF (xyzX r g b) - labF (xyzY r g b)),
   200 * (labF (xyzY r g b) - labF (xyzZ r g b))⟩

/-- Spec wording: a well-formed color string is "an optional '#' followed by
exactly six hexadecimal digits, case-insensitive". -/
def isHexDigitCI (c : Char) : Prop :=
  ('0' ≤ c ∧ c ≤ '9') ∨ ('a' ≤ c ∧ c ≤ 'f') ∨ ('A' ≤ c ∧ c ≤ 'F')

instance (c : Char) : Decidable (isHexDigitCI c) := by
  unfold isHexDigitCI; infer_instance

/-- Spec wording: well-formed hex color strings. -/
def wellFormed (s : String) : Prop :=
  ∃ t : List Char, (s.data = '#' :: t ∨ s.data = t) ∧ t.length = 6 ∧
    ∀ c ∈ t, isHexDigitCI c

/-- Spec wording of 4.2's tie-break: the first entry of the list attaining
the minimum of `f`, scanning left to right and replacing the incumbent only
on a strictly smaller value. -/
noncomputable def firstMinByAux (f : ColorName → ℝ) (best : ColorName) :
    List ColorName → ColorName
  | [] => best
  | c :: rest =>
      if f c < f best then firstMinByAux f c rest else firstMinByAux f best rest

/-- First entry with minimal `f`, `none` on the empty list. -/
noncomputable def firstMinBy (f : ColorName → ℝ) :
    List ColorName → Option ColorName
  | [] => none
  | c :: rest => some (firstMinByAux f c rest)

/-- Lab value of a reference entry, "precomputed at build time" per spec 4.2
(derived from the entry's RGB by the 4.1 conversion). -/
noncomputable def labOf (c : ColorName) : LAB :=
  rgbToLab c.rgb.1 c.rgb.2.1 c.rgb.2.2

/-- One step of the 4.2 scan: keep the incumbent unless the new entry's
perceptual distance is strictly smaller (first occurrence wins ties). -/
noncomputable def nearestLabStep (lab : LAB) (acc : Option (ColorName × ℝ))
    (c : ColorName) : Option (ColorName × ℝ) :=
  let d := deltaE2000 lab (labOf c)
  match acc with
  | none => some (c, d)
  | some (best, minDist) =>
      if d < minDist then some (c, d) else some (best, minDist)

/-- Modelled from the spec: the backend endpoint `nameForHex` (spec section 6)
and the Color Name Index lookup `nearestName` (spec 4.2) are implemented in
the backend, which is not among the available sources.  Following the spec's
words: parse the hex string, convert the RGB to Lab via 4.1, scan the full
reference set and return the entry with minimum `perceptualDistance`
together with that distance, ties broken by first occurrence in table
order.  The reference set is the repository's color-name table. -/
noncomputable def nameForHex (s : String) : Option (String × ℝ) :=
  match parseHex s with
  | none => none
  | some (r, g, b) =>
    match colorNames.foldl (nearestLabStep (rgbToLab r g b)) none with
    | none => none
    | some (c, d) => some (c.name, d)

/-- A palette entry, from the spec's data model (section 3). -/
structure PaletteEntry where
  rgb : ℕ × ℕ × ℕ
  lab : LAB
  hex : String
  name : String
  percent : ℝ

/-- Modelled from the spec (4.4): two palette entries are near-duplicates
when their `perceptualDistance` is below the fixed threshold 5.0 (the
source's distance is asymmetric, so "the distance between them" is read as
either orientation being below the threshold). -/
noncomputable def closePair (a b : PaletteEntry) : Prop :=
  deltaE2000 a.lab b.lab < 5 ∨ deltaE2000 b.lab a.lab < 5

noncomputable instance (a b : PaletteEntry) : Decidable (closePair a b) := by
  unfold closePair; infer_instance

/-- Modelled from the spec (4.4): merging two near-duplicate entries keeps
the RGB/hex/Lab of whichever had the higher `percent` and sums the
`percent` values. -/
noncomputable def mergeEntries (a b : PaletteEntry) : PaletteEntry :=
  if a.percent < b.percent then
    ⟨b.rgb, b.lab, b.hex, b.name, a.percent + b.percent⟩
  else
    ⟨a.rgb, a.lab, a.hex, a.name, a.percent + b.percent⟩

/-- Find the first entry of the list forming a near-duplicate pair with `x`;
returns that entry and the list with it removed. -/
noncomputable def findPartner (x : PaletteEntry) :
    List PaletteEntry → Option (PaletteEntry × List PaletteEntry)
  | [] => none
  | y :: ys =>
      if closePair x y then some (y, ys)
      else (findPartner x ys).map (fun p => (p.1, y :: p.2))

/-- One scan of the deduplication pass: merge the first near-duplicate pair
found, or report `none` when no pair is within the threshold. -/
noncomputable def mergePass : List PaletteEntry → Option (List PaletteEntry)
  | [] => none
  | x :: xs =>
    match findPartner x xs with
    | some (y, rest) => some (mergeEntries x y :: rest)
    | none => (mergePass xs).map (x :: ·)

/-- Modelled from the spec (4.4): "repeat until no pair is within
threshold".  Each merge shortens the list, so the list's length bounds the
number of scans. -/
noncomputable def dedupLoop : ℕ → List PaletteEntry → List PaletteEntry
  | 0, l => l
  | n + 1, l =>
    match mergePass l with
    | none => l
    | some l2 => dedupLoop n l2

/-- Modelled from the spec (4.4): the deduplication pass of
`extractPalette` (the palette extractor itself lives in the backend, which
is not among the available sources). -/
noncomputable def dedupPalette (l : List PaletteEntry) : List PaletteEntry :=
  dedupLoop l.length l

/-! ### Basic helper lemmas -/

lemma hexVal_some_iff (c : Char) : (∃ d, hexVal? c = some d) ↔ isHexDigitCI c := by
  unfold hexVal? isHexDigitCI
  split_ifs with h1 h2 h3 <;> simp_all

lemma rgbToLab_eq_spec (r g b : ℝ) : rgbToLab r g b = rgbToLabSpec r g b := rfl

lemma deltaE_nonneg (l1 l2 : LAB) : 0 ≤ deltaE2000 l1 l2 := by
  unfold deltaE2000; exact Real.sqrt_nonneg _

lemma deltaE_self (l : LAB) : deltaE2000 l l = 0 := by
  unfold deltaE2000
  simp [Real.sqrt_zero]

lemma sqrt_le_of (x q : ℝ) (hq : 0 ≤ q) (h : x ≤ q ^ 2) : Real.sqrt x ≤ q := by
  calc Real.sqrt x ≤ Real.sqrt (q ^ 2) := Real.sqrt_le_sqrt h
    _ = q := Real.sqrt_sq hq

lemma le_sqrt_of (x q : ℝ) (hq : 0 ≤ q) (h : q ^ 2 ≤ x) : q ≤ Real.sqrt x := by
  calc q = Real.sqrt (q ^ 2) := (Real.sqrt_sq hq).symm
    _ ≤ Real.sqrt x := Real.sqrt_le_sqrt h

lemma rpow24_le (t q : ℝ) (ht : 0 ≤ t) (hq : 0 ≤ q) (h : t ^ 12 ≤ q ^ 5) :
    t ^ (2.4 : ℝ) ≤ q := by
  have h5 : (t ^ (2.4 : ℝ)) ^ (5 : ℕ) = t ^ 12 := by
    rw [← Real.rpow_natCast (t ^ (2.4 : ℝ)) 5, ← Real.rpow_mul ht]
    rw [show (2.4 : ℝ) * ((5 : ℕ) : ℝ) = ((12 : ℕ) : ℝ) by norm_num]
    rw [Real.rpow_natCast]
  by_contra hlt
  push_neg at hlt
  have := pow_lt_pow_left₀ hlt hq (by norm_num : (5 : ℕ) ≠ 0)
  rw [h5] at this
  linarith

lemma le_rpow24 (t q : ℝ) (ht : 0 ≤ t) (hq : 0 ≤ q) (h : q ^ 5 ≤ t ^ 12) :
    q ≤ t ^ (2.4 : ℝ) := by
  have h5 : (t ^ (2.4 : ℝ)) ^ (5 : ℕ) = t ^ 12 := by
    rw [← Real.rpow_natCast (t ^ (2.4 : ℝ)) 5, ← Real.rpow_mul ht]
    rw [show (2.4 : ℝ) * ((5 : ℕ) : ℝ) = ((12 : ℕ) : ℝ) by norm_num]
    rw [Real.rpow_natCast]
  by_contra hlt
  push_neg at hlt
  have hnn : 0 ≤ t ^ (2.4 : ℝ) := Real.rpow_nonneg ht _
  have := pow_lt_pow_left₀ hlt hnn (by norm_num : (5 : ℕ) ≠ 0)
  rw [h5] at this
  linarith

lemma cbrt_le (t q : ℝ) (ht : 0 ≤ t) (hq : 0 ≤ q) (h : t ≤ q ^ 3) :
    t ^ ((1 : ℝ) / 3) ≤ q := by
  have h3 : (t ^ ((1 : ℝ) / 3)) ^ (3 : ℕ) = t := by
    rw [← Real.rpow_natCast (t ^ ((1 : ℝ) / 3)) 3, ← Real.rpow_mul ht]
    rw [show (1 : ℝ) / 3 * ((3 : ℕ) : ℝ) = 1 by norm_num]
    exact Real.rpow_one t
  by_contra hlt
  push_neg at hlt
  have := pow_lt_pow_left₀ hlt hq (by norm_num : (3 : ℕ) ≠ 0)
  rw [h3] at this
  linarith

lemma le_cbrt (t q : ℝ) (ht : 0 ≤ t) (hq : 0 ≤ q) (h : q ^ 3 ≤ t) :
    q ≤ t ^ ((1 : ℝ) / 3) := by
  have h3 : (t ^ ((1 : ℝ) / 3)) ^ (3 : ℕ) = t := by
    rw [← Real.rpow_natCast (t ^ ((1 : ℝ) / 3)) 3, ← Real.rpow_mul ht]
    rw [show (1 : ℝ) / 3 * ((3 : ℕ) : ℝ) = 1 by norm_num]
    exact Real.rpow_one t
  by_contra hlt
  push_neg at hlt
  have hnn : 0 ≤ t ^ ((1 : ℝ) / 3) := Real.rpow_nonneg ht _
  have := pow_lt_pow_left₀ hlt hnn (by norm_num : (3 : ℕ) ≠ 0)
  rw [h3] at this
  linarith

lemma labF_le (t q : ℝ) (hbr : (0.008856 : ℝ) < t) (hq : 0 ≤ q) (h : t ≤ q ^ 3) :
    labF t ≤ q := by
  unfold labF
  rw [if_pos (by exact_mod_cast hbr)]
  exact cbrt_le t q (by linarith) hq h

lemma le_labF (t q : ℝ) (hbr : (0.008856 : ℝ) < t) (hq : 0 ≤ q) (h : q ^ 3 ≤ t) :
    q ≤ labF t := by
  unfold labF
  rw [if_pos (by exact_mod_cast hbr)]
  exact le_cbrt t q (by linarith) hq h

lemma srgbDecode_zero : srgbDecode 0 = 0 := by
  unfold srgbDecode; norm_num

lemma srgbDecode_one : srgbDecode 1 = 1 := by
  unfold srgbDecode
  rw [if_pos (by norm_num)]
  rw [show ((1 : ℝ) + 0.055) / 1.055 = 1 by norm_num, Real.one_rpow]

lemma hash_not_hex : ¬ isHexDigitCI '#' := by decide

lemma stripHash_nil : stripHash [] = [] := rfl

lemma stripHash_cons (c : Char) (rest : List Char) :
    stripHash (c :: rest) = if c = '#' then rest else c :: rest := rfl

lemma wellFormed_iff (s : String) :
    wellFormed s ↔ (stripHash s.data).length = 6 ∧
      ∀ c ∈ stripHash s.data, isHexDigitCI c := by
  constructor
  · rintro ⟨t, hor, hlen, hdig⟩
    rcases hor with h | h
    · rw [h]
      rw [stripHash_cons, if_pos rfl]
      exact ⟨hlen, hdig⟩
    · rw [h]
      cases t with
      | nil => simp at hlen
      | cons c rest =>
        have hc : c ≠ '#' := by
          intro hc
          exact hash_not_hex (hc ▸ hdig c (by simp))
        rw [stripHash_cons, if_neg hc]
        exact ⟨hlen, hdig⟩
  · rintro ⟨hlen, hdig⟩
    cases hd : s.data with
    | nil =>
      rw [hd, stripHash_nil] at hlen
      simp at hlen
    | cons c rest =>
      by_cases hc : c = '#'
      · refine ⟨rest, Or.inl (by rw [hd, hc]), ?_, ?_⟩
        · rw [hd, stripHash_cons, if_pos hc] at hlen
          exact hlen
        · intro d hdm
          apply hdig
          rw [hd, stripHash_cons, if_pos hc]
          exact hdm
      · refine ⟨c :: rest, Or.inr hd, ?_, ?_⟩
        · rw [hd, stripHash_cons, if_neg hc] at hlen
          exact hlen
        · intro d hdm
          apply hdig
          rw [hd, stripHash_cons, if_neg hc]
          exact hdm

lemma parseHex_some_iff (s : String) :
    (∃ v, parseHex s = some v) ↔ wellFormed s := by
  rw [wellFormed_iff]
  unfold parseHex
  cases hl : stripHash s.data with
  | nil => simp
  | cons a1 t1 =>
    cases t1 with
    | nil => simp
    | cons a2 t2 =>
      cases t2 with
      | nil => simp
      | cons b1 t3 =>
        cases t3 with
        | nil => simp
        | cons b2 t4 =>
          cases t4 with
          | nil => simp
          | cons c1 t5 =>
            cases t5 with
            | nil => simp
            | cons c2 t6 =>
              cases t6 with
              | cons d t7 => simp
              | nil =>
                constructor
                · rintro ⟨v, hv⟩
                  refine ⟨rfl, ?_⟩
                  intro c hc
                  rw [← hexVal_some_iff]
                  simp only [List.mem_cons, List.not_mem_nil, or_false] at hc
                  change (match hexVal? a1, hexVal? a2, hexVal? b1, hexVal? b2,
                      hexVal? c1, hexVal? c2 with
                    | some d1, some d2, some d3, some d4, some d5, some d6 =>
                        some (16 * d1 + d2, 16 * d3 + d4, 16 * d5 + d6)
                    | _, _, _, _, _, _ => none) = some v at hv
                  cases h1 : hexVal? a1 <;> cases h2 : hexVal? a2 <;>
                    cases h3 : hexVal? b1 <;> cases h4 : hexVal? b2 <;>
                    cases h5 : hexVal? c1 <;> cases h6 : hexVal? c2 <;>
                    rw [h1, h2, h3, h4, h5, h6] at hv <;>
                    try exact Option.noConfusion hv
                  rcases hc with rfl | rfl | rfl | rfl | rfl | rfl
                  exacts [⟨_, h1⟩, ⟨_, h2⟩, ⟨_, h3⟩, ⟨_, h4⟩, ⟨_, h5⟩, ⟨_, h6⟩]
                · rintro ⟨-, hdig⟩
                  have h1 := (hexVal_some_iff a1).mpr (hdig a1 (by simp))
                  have h2 := (hexVal_some_iff a2).mpr (hdig a2 (by simp))
                  have h3 := (hexVal_some_iff b1).mpr (hdig b1 (by simp))
                  have h4 := (hexVal_some_iff b2).mpr (hdig b2 (by simp))
                  have h5 := (hexVal_some_iff c1).mpr (hdig c1 (by simp))
                  have h6 := (hexVal_some_iff c2).mpr (hdig c2 (by simp))
                  obtain ⟨d1, hd1⟩ := h1
                  obtain ⟨d2, hd2⟩ := h2
                  obtain ⟨d3, hd3⟩ := h3
                  obtain ⟨d4, hd4⟩ := h4
                  obtain ⟨d5, hd5⟩ := h5
                  obtain ⟨d6, hd6⟩ := h6
                  refine ⟨(16 * d1 + d2, 16 * d3 + d4, 16 * d5 + d6), ?_⟩
                  change (match hexVal? a1, hexVal? a2, hexVal? b1, hexVal? b2,
                      hexVal? c1, hexVal? c2 with
                    | some e1, some e2, some e3, some e4, some e5, some e6 =>
                        some (16 * e1 + e2, 16 * e3 + e4, 16 * e5 + e6)
                    | _, _, _, _, _, _ => none) =
                    some (16 * d1 + d2, 16 * d3 + d4, 16 * d5 + d6)
                  rw [hd1, hd2, hd3, hd4, hd5, hd6]

lemma parseHex_none_iff (s : String) : parseHex s = none ↔ ¬ wellFormed s := by
  rw [← parseHex_some_iff]
  cases parseHex s <;> simp

/-! ### The loop of findNearestColorName: squared-distance twin, argmin shape -/

lemma sqDist_nonneg (r g b : ℕ) (c : ColorName) : 0 ≤ sqDist r g b c := by
  unfold sqDist; positivity

lemma rgbDist_eq_sqrt_sqDist (r g b : ℕ) (c : ColorName) :
    rgbDist r g b c = Real.sqrt ((sqDist r g b c : ℤ) : ℝ) := by
  unfold rgbDist sqDist
  congr 1
  push_cast
  ring

/-- Transport of a loop accumulator from squared integer distances to real
distances. -/
noncomputable def relAcc : Option (ColorName × ℤ) → Option (ColorName × ℝ)
  | none => none
  | some (c, d) => some (c, Real.sqrt (d : ℝ))

lemma nearestStep_rel (r g b : ℕ) (acc : Option (ColorName × ℤ)) (c : ColorName)
    (hacc : ∀ cd, acc = some cd → 0 ≤ cd.2) :
    nearestStep r g b (relAcc acc) c = relAcc (nearestStepSq r g b acc c) := by
  cases acc with
  | none =>
    unfold nearestStep nearestStepSq relAcc
    rw [rgbDist_eq_sqrt_sqDist]
  | some p =>
    obtain ⟨best, m⟩ := p
    have hm : (0 : ℤ) ≤ m := hacc (best, m) rfl
    unfold nearestStep nearestStepSq relAcc
    simp only
    rw [rgbDist_eq_sqrt_sqDist]
    by_cases hlt : sqDist r g b c < m
    · rw [if_pos hlt, if_pos]
      exact Real.sqrt_lt_sqrt (by exact_mod_cast sqDist_nonneg r g b c)
        (by exact_mod_cast hlt)
    · rw [if_neg hlt, if_neg]
      intro hcon
      apply hlt
      have := (Real.sqrt_lt_sqrt_iff
        (by exact_mod_cast sqDist_nonneg r g b c)).mp hcon
      exact_mod_cast this

lemma foldl_rel (r g b : ℕ) (l : List ColorName) :
    ∀ acc : Option (ColorName × ℤ), (∀ cd, acc = some cd → 0 ≤ cd.2) →
      l.foldl (nearestStep r g b) (relAcc acc) =
        relAcc (l.foldl (nearestStepSq r g b) acc) := by
  induction l with
  | nil => intro acc hacc; rfl
  | cons c rest ih =>
    intro acc hacc
    have hstep := nearestStep_rel r g b acc c hacc
    simp only [List.foldl_cons]
    rw [hstep]
    apply ih
    intro cd hcd
    cases acc with
    | none =>
      unfold nearestStepSq at hcd
      simp only at hcd
      cases hcd
      exact sqDist_nonneg r g b c
    | some p =>
      obtain ⟨best, m⟩ := p
      have hm : (0 : ℤ) ≤ m := hacc (best, m) rfl
      unfold nearestStepSq at hcd
      simp only at hcd
      by_cases hlt : sqDist r g b c < m
      · rw [if_pos hlt] at hcd
        cases hcd
        exact sqDist_nonneg r g b c
      · rw [if_neg hlt] at hcd
        cases hcd
        exact hm

lemma relAcc_map_fst (acc : Option (ColorName × ℤ)) :
    (relAcc acc).map Prod.fst = acc.map Prod.fst := by
  cases acc with
  | none => rfl
  | some p => obtain ⟨c, d⟩ := p; rfl

lemma findNearest_eq_sq (s : String) (r g b : ℕ)
    (h : parseHex s = some (r, g, b)) :
    findNearestColorName s = findNearestSq r g b := by
  unfold findNearestColorName findNearestSq
  rw [h]
  show (List.foldl (nearestStep r g b) none colorNames).map Prod.fst =
    (List.foldl (nearestStepSq r g b) none colorNames).map Prod.fst
  have h2 : List.foldl (nearestStep r g b) none colorNames =
      relAcc (List.foldl (nearestStepSq r g b) none colorNames) :=
    foldl_rel r g b colorNames none (by intro cd hcd; cases hcd)
  rw [h2, relAcc_map_fst]

lemma foldl_some (r g b : ℕ) (l : List ColorName) :
    ∀ p : ColorName × ℝ, ∃ q, l.foldl (nearestStep r g b) (some p) = some q := by
  induction l with
  | nil => intro p; exact ⟨p, rfl⟩
  | cons c rest ih =>
    intro p
    obtain ⟨best, m⟩ := p
    simp only [List.foldl_cons]
    unfold nearestStep
    simp only
    by_cases hlt : rgbDist r g b c < m
    · rw [if_pos hlt]; exact ih _
    · rw [if_neg hlt]; exact ih _

lemma foldl_firstMinAux (r g b : ℕ) (l : List ColorName) :
    ∀ best : ColorName,
      l.foldl (nearestStep r g b) (some (best, rgbDist r g b best)) =
        some (firstMinByAux (rgbDist r g b) best l,
          rgbDist r g b (firstMinByAux (rgbDist r g b) best l)) := by
  induction l with
  | nil => intro best; rfl
  | cons c rest ih =>
    intro best
    simp only [List.foldl_cons]
    unfold nearestStep firstMinByAux
    simp only
    by_cases hlt : rgbDist r g b c < rgbDist r g b best
    · rw [if_pos hlt, if_pos hlt]
      exact ih c
    · rw [if_neg hlt, if_neg hlt]
      exact ih best

lemma findNearest_eq_firstMin (s : String) (r g b : ℕ)
    (h : parseHex s = some (r, g, b)) :
    findNearestColorName s = firstMinBy (rgbDist r g b) colorNames := by
  unfold findNearestColorName
  rw [h]
  show (List.foldl (nearestStep r g b) none colorNames).map Prod.fst =
    firstMinBy (rgbDist r g b) colorNames
  obtain ⟨c0, rest, hc⟩ : ∃ c0 rest, colorNames = c0 :: rest := ⟨_, _, rfl⟩
  rw [hc]
  simp only [List.foldl_cons]
  have h0 : nearestStep r g b none c0 = some (c0, rgbDist r g b c0) := rfl
  rw [h0, foldl_firstMinAux]
  rfl

/-! ### Geometric facts about deltaE2000 -/

lemma deltaE_eq (l1 l2 : LAB) : deltaE2000 l1 l2 =
    Real.sqrt (((l1.l - l2.l) / 1) ^ 2 +
      ((Real.sqrt (l1.a * l1.a + l1.b * l1.b) -
          Real.sqrt (l2.a * l2.a + l2.b * l2.b)) /
        (1 + 0.045 * Real.sqrt (l1.a * l1.a + l1.b * l1.b))) ^ 2 +
      (Real.sqrt ((l1.a - l2.a) * (l1.a - l2.a) + (l1.b - l2.b) * (l1.b - l2.b) -
          (Real.sqrt (l1.a * l1.a + l1.b * l1.b) -
            Real.sqrt (l2.a * l2.a + l2.b * l2.b)) *
          (Real.sqrt (l1.a * l1.a + l1.b * l1.b) -
            Real.sqrt (l2.a * l2.a + l2.b * l2.b))) /
        (1 + 0.015 * Real.sqrt (l1.a * l1.a + l1.b * l1.b))) ^ 2) := rfl

lemma abs_le_sqrt_add (x y z : ℝ) (hy : 0 ≤ y) (hz : 0 ≤ z) :
    |x| ≤ Real.sqrt (x ^ 2 + y + z) := by
  rw [← Real.sqrt_sq_eq_abs]
  apply Real.sqrt_le_sqrt
  linarith

lemma third_le_sqrt (x y z : ℝ) (hx : 0 ≤ x) (hy : 0 ≤ y) (hz : 0 ≤ z) :
    z ≤ Real.sqrt (x + y + z ^ 2) := by
  have h : z = Real.sqrt (z ^ 2) := (Real.sqrt_sq hz).symm
  nth_rewrite 1 [h]
  apply Real.sqrt_le_sqrt
  linarith

/-- Reverse triangle inequality in the chroma plane: the squared difference
of the two chroma radii is at most the squared Euclidean distance of the
(a,b) points. -/
lemma sub_sqrt_sq_le (a1 b1 a2 b2 : ℝ) :
    (Real.sqrt (a1 * a1 + b1 * b1) - Real.sqrt (a2 * a2 + b2 * b2)) *
      (Real.sqrt (a1 * a1 + b1 * b1) - Real.sqrt (a2 * a2 + b2 * b2)) ≤
    (a1 - a2) * (a1 - a2) + (b1 - b2) * (b1 - b2) := by
  set c1 := Real.sqrt (a1 * a1 + b1 * b1) with hc1
  set c2 := Real.sqrt (a2 * a2 + b2 * b2) with hc2
  have h1n : (0 : ℝ) ≤ a1 * a1 + b1 * b1 := by
    have := mul_self_nonneg a1; have := mul_self_nonneg b1; linarith
  have h2n : (0 : ℝ) ≤ a2 * a2 + b2 * b2 := by
    have := mul_self_nonneg a2; have := mul_self_nonneg b2; linarith
  have hc1sq : c1 * c1 = a1 * a1 + b1 * b1 := Real.mul_self_sqrt h1n
  have hc2sq : c2 * c2 = a2 * a2 + b2 * b2 := Real.mul_self_sqrt h2n
  have key : a1 * a2 + b1 * b2 ≤ c1 * c2 := by
    have hmul : c1 * c2 = Real.sqrt ((a1 * a1 + b1 * b1) * (a2 * a2 + b2 * b2)) := by
      rw [hc1, hc2, ← Real.sqrt_mul h1n]
    have hcs : (a1 * a2 + b1 * b2) ^ 2 ≤
        (a1 * a1 + b1 * b1) * (a2 * a2 + b2 * b2) := by
      nlinarith [sq_nonneg (a1 * b2 - a2 * b1)]
    calc a1 * a2 + b1 * b2 ≤ |a1 * a2 + b1 * b2| := le_abs_self _
      _ = Real.sqrt ((a1 * a2 + b1 * b2) ^ 2) := (Real.sqrt_sq_eq_abs _).symm
      _ ≤ Real.sqrt ((a1 * a1 + b1 * b1) * (a2 * a2 + b2 * b2)) :=
          Real.sqrt_le_sqrt hcs
      _ = c1 * c2 := hmul.symm
  nlinarith [key, hc1sq, hc2sq]

/-- The square-root argument of the residual hue term is non-negative. -/
lemma hueArg_nonneg (l1 l2 : LAB) :
    0 ≤ (l1.a - l2.a) * (l1.a - l2.a) + (l1.b - l2.b) * (l1.b - l2.b) -
      (Real.sqrt (l1.a * l1.a + l1.b * l1.b) -
        Real.sqrt (l2.a * l2.a + l2.b * l2.b)) *
      (Real.sqrt (l1.a * l1.a + l1.b * l1.b) -
        Real.sqrt (l2.a * l2.a + l2.b * l2.b)) := by
  have := sub_sqrt_sq_le l1.a l1.b l2.a l2.b
  linarith

lemma deltaE_ge_abs_dL (l1 l2 : LAB) : |l1.l - l2.l| ≤ deltaE2000 l1 l2 := by
  rw [deltaE_eq]
  rw [show |l1.l - l2.l| = |(l1.l - l2.l) / 1| by rw [div_one]]
  exact abs_le_sqrt_add _ _ _ (sq_nonneg _) (sq_nonneg _)

lemma deltaE_ge_hue (l1 l2 : LAB) :
    Real.sqrt ((l1.a - l2.a) * (l1.a - l2.a) + (l1.b - l2.b) * (l1.b - l2.b) -
        (Real.sqrt (l1.a * l1.a + l1.b * l1.b) -
          Real.sqrt (l2.a * l2.a + l2.b * l2.b)) *
        (Real.sqrt (l1.a * l1.a + l1.b * l1.b) -
          Real.sqrt (l2.a * l2.a + l2.b * l2.b))) /
      (1 + 0.015 * Real.sqrt (l1.a * l1.a + l1.b * l1.b)) ≤ deltaE2000 l1 l2 := by
  rw [deltaE_eq]
  apply third_le_sqrt _ _ _ (sq_nonneg _) (sq_nonneg _)
  apply div_nonneg (Real.sqrt_nonneg _)
  have := Real.sqrt_nonneg (l1.a * l1.a + l1.b * l1.b)
  linarith

lemma deltaE_le_crude (l1 l2 : LAB) : deltaE2000 l1 l2 ≤
    Real.sqrt ((l1.l - l2.l) ^ 2 + (l1.a - l2.a) ^ 2 + (l1.b - l2.b) ^ 2) := by
  rw [deltaE_eq]
  apply Real.sqrt_le_sqrt
  rw [div_one]
  set c1 := Real.sqrt (l1.a * l1.a + l1.b * l1.b) with hc1
  set c2 := Real.sqrt (l2.a * l2.a + l2.b * l2.b) with hc2
  have hc1n : 0 ≤ c1 := Real.sqrt_nonneg _
  have hsc : (1 : ℝ) ≤ 1 + 0.045 * c1 := by linarith
  have hsh : (1 : ℝ) ≤ 1 + 0.015 * c1 := by linarith
  have harg : 0 ≤ (l1.a - l2.a) * (l1.a - l2.a) + (l1.b - l2.b) * (l1.b - l2.b) -
      (c1 - c2) * (c1 - c2) := hueArg_nonneg l1 l2
  have h2 : ((c1 - c2) / (1 + 0.045 * c1)) ^ 2 ≤ (c1 - c2) ^ 2 := by
    rw [div_pow]
    apply div_le_self (sq_nonneg _)
    nlinarith [hsc]
  have h3 : (Real.sqrt ((l1.a - l2.a) * (l1.a - l2.a) +
      (l1.b - l2.b) * (l1.b - l2.b) - (c1 - c2) * (c1 - c2)) /
        (1 + 0.015 * c1)) ^ 2 ≤
      (l1.a - l2.a) * (l1.a - l2.a) + (l1.b - l2.b) * (l1.b - l2.b) -
        (c1 - c2) * (c1 - c2) := by
    rw [div_pow]
    have hsq : Real.sqrt ((l1.a - l2.a) * (l1.a - l2.a) +
        (l1.b - l2.b) * (l1.b - l2.b) - (c1 - c2) * (c1 - c2)) ^ 2 =
        (l1.a - l2.a) * (l1.a - l2.a) + (l1.b - l2.b) * (l1.b - l2.b) -
          (c1 - c2) * (c1 - c2) := Real.sq_sqrt harg
    calc Real.sqrt ((l1.a - l2.a) * (l1.a - l2.a) +
          (l1.b - l2.b) * (l1.b - l2.b) - (c1 - c2) * (c1 - c2)) ^ 2 /
            (1 + 0.015 * c1) ^ 2 ≤
        Real.sqrt ((l1.a - l2.a) * (l1.a - l2.a) +
          (l1.b - l2.b) * (l1.b - l2.b) - (c1 - c2) * (c1 - c2)) ^ 2 := by
          apply div_le_self (sq_nonneg _)
          nlinarith [hsh]
      _ = _ := hsq
  have hring : (c1 - c2) ^ 2 + ((l1.a - l2.a) * (l1.a - l2.a) +
      (l1.b - l2.b) * (l1.b - l2.b) - (c1 - c2) * (c1 - c2)) =
      (l1.a - l2.a) ^ 2 + (l1.b - l2.b) ^ 2 := by ring
  linarith [h2, h3, hring]

/-! ### Rational interval bounds for concrete Lab values -/

lemma red_bounds :
    (53.2407 : ℝ) ≤ (rgbToLab 255 0 0).l ∧ (rgbToLab 255 0 0).l ≤ 53.2409 ∧
    (80.091 : ℝ) ≤ (rgbToLab 255 0 0).a ∧ (rgbToLab 255 0 0).a ≤ 80.094 ∧
    (67.202 : ℝ) ≤ (rgbToLab 255 0 0).b ∧ (rgbToLab 255 0 0).b ≤ 67.204 := by
  simp only [rgbToLab_eq_spec, rgbToLabSpec, xyzX, xyzY, xyzZ]
  rw [show ((255 : ℝ) / 255) = 1 by norm_num, show ((0 : ℝ) / 255) = 0 by norm_num,
    srgbDecode_one, srgbDecode_zero]
  have hfx1 : (0.757088 : ℝ) ≤
      labF ((1 * 0.4124564 + 0 * 0.3575761 + 0 * 0.1804375) / 0.95047) :=
    le_labF _ _ (by norm_num) (by norm_num) (by norm_num)
  have hfx2 : labF ((1 * 0.4124564 + 0 * 0.3575761 + 0 * 0.1804375) / 0.95047) ≤
      (0.757089 : ℝ) :=
    labF_le _ _ (by norm_num) (by norm_num) (by norm_num)
  have hfy1 : (0.596903 : ℝ) ≤
      labF ((1 * 0.2126729 + 0 * 0.7151522 + 0 * 0.0721750) / 1.00000) :=
    le_labF _ _ (by norm_num) (by norm_num) (by norm_num)
  have hfy2 : labF ((1 * 0.2126729 + 0 * 0.7151522 + 0 * 0.0721750) / 1.00000) ≤
      (0.596904 : ℝ) :=
    labF_le _ _ (by norm_num) (by norm_num) (by norm_num)
  have hfz1 : (0.260887 : ℝ) ≤
      labF ((1 * 0.0193339 + 0 * 0.1191920 + 0 * 0.9503041) / 1.08883) :=
    le_labF _ _ (by norm_num) (by norm_num) (by norm_num)
  have hfz2 : labF ((1 * 0.0193339 + 0 * 0.1191920 + 0 * 0.9503041) / 1.08883) ≤
      (0.260888 : ℝ) :=
    labF_le _ _ (by norm_num) (by norm_num) (by norm_num)
  refine ⟨?_, ?_, ?_, ?_, ?_, ?_⟩ <;> linarith

lemma green_bounds :
    (-86.184 : ℝ) ≤ (rgbToLab 0 255 0).a ∧ (rgbToLab 0 255 0).a ≤ -86.181 ∧
    (83.178 : ℝ) ≤ (rgbToLab 0 255 0).b ∧ (rgbToLab 0 255 0).b ≤ 83.180 := by
  simp only [rgbToLab_eq_spec, rgbToLabSpec, xyzX, xyzY, xyzZ]
  rw [show ((255 : ℝ) / 255) = 1 by norm_num, show ((0 : ℝ) / 255) = 0 by norm_num,
    srgbDecode_one, srgbDecode_zero]
  have hfx1 : (0.721899 : ℝ) ≤
      labF ((0 * 0.4124564 + 1 * 0.3575761 + 0 * 0.1804375) / 0.95047) :=
    le_labF _ _ (by norm_num) (by norm_num) (by norm_num)
  have hfx2 : labF ((0 * 0.4124564 + 1 * 0.3575761 + 0 * 0.1804375) / 0.95047) ≤
      (0.7219 : ℝ) :=
    labF_le _ _ (by norm_num) (by norm_num) (by norm_num)
  have hfy1 : (0.894264 : ℝ) ≤
      labF ((0 * 0.2126729 + 1 * 0.7151522 + 0 * 0.0721750) / 1.00000) :=
    le_labF _ _ (by norm_num) (by norm_num) (by norm_num)
  have hfy2 : labF ((0 * 0.2126729 + 1 * 0.7151522 + 0 * 0.0721750) / 1.00000) ≤
      (0.894265 : ℝ) :=
    labF_le _ _ (by norm_num) (by norm_num) (by norm_num)
  have hfz1 : (0.478368 : ℝ) ≤
      labF ((0 * 0.0193339 + 1 * 0.1191920 + 0 * 0.9503041) / 1.08883) :=
    le_labF _ _ (by norm_num) (by norm_num) (by norm_num)
  have hfz2 : labF ((0 * 0.0193339 + 1 * 0.1191920 + 0 * 0.9503041) / 1.08883) ≤
      (0.478369 : ℝ) :=
    labF_le _ _ (by norm_num) (by norm_num) (by norm_num)
  refine ⟨?_, ?_, ?_, ?_⟩ <;> linarith

lemma blue_bounds :
    (32.2969 : ℝ) ≤ (rgbToLab 0 0 255).l ∧ (rgbToLab 0 0 255).l ≤ 32.2971 ∧
    (79.186 : ℝ) ≤ (rgbToLab 0 0 255).a ∧ (rgbToLab 0 0 255).a ≤ 79.189 ∧
    (-107.861 : ℝ) ≤ (rgbToLab 0 0 255).b ∧ (rgbToLab 0 0 255).b ≤ -107.859 := by
  simp only [rgbToLab_eq_spec, rgbToLabSpec, xyzX, xyzY, xyzZ]
  rw [show ((255 : ℝ) / 255) = 1 by norm_num, show ((0 : ℝ) / 255) = 0 by norm_num,
    srgbDecode_one, srgbDecode_zero]
  have hfx1 : (0.574728 : ℝ) ≤
      labF ((0 * 0.4124564 + 0 * 0.3575761 + 1 * 0.1804375) / 0.95047) :=
    le_labF _ _ (by norm_num) (by norm_num) (by norm_num)
  have hfx2 : labF ((0 * 0.4124564 + 0 * 0.3575761 + 1 * 0.1804375) / 0.95047) ≤
      (0.574729 : ℝ) :=
    labF_le _ _ (by norm_num) (by norm_num) (by norm_num)
  have hfy1 : (0.416353 : ℝ) ≤
      labF ((0 * 0.2126729 + 0 * 0.7151522 + 1 * 0.0721750) / 1.00000) :=
    le_labF _ _ (by norm_num) (by norm_num) (by norm_num)
  have hfy2 : labF ((0 * 0.2126729 + 0 * 0.7151522 + 1 * 0.0721750) / 1.00000) ≤
      (0.416354 : ℝ) :=
    labF_le _ _ (by norm_num) (by norm_num) (by norm_num)
  have hfz1 : (0.955654 : ℝ) ≤
      labF ((0 * 0.0193339 + 0 * 0.1191920 + 1 * 0.9503041) / 1.08883) :=
    le_labF _ _ (by norm_num) (by norm_num) (by norm_num)
  have hfz2 : labF ((0 * 0.0193339 + 0 * 0.1191920 + 1 * 0.9503041) / 1.08883) ≤
      (0.955655 : ℝ) :=
    labF_le _ _ (by norm_num) (by norm_num) (by norm_num)
  refine ⟨?_, ?_, ?_, ?_, ?_, ?_⟩ <;> linarith

lemma magenta_L_bounds :
    (60.3241 : ℝ) ≤ (rgbToLab 255 0 255).l ∧ (rgbToLab 255 0 255).l ≤ 60.3243 := by
  simp only [rgbToLab_eq_spec, rgbToLabSpec, xyzX, xyzY, xyzZ]
  rw [show ((255 : ℝ) / 255) = 1 by norm_num, show ((0 : ℝ) / 255) = 0 by norm_num,
    srgbDecode_one, srgbDecode_zero]
  have hfy1 : (0.657967 : ℝ) ≤
      labF ((1 * 0.2126729 + 0 * 0.7151522 + 1 * 0.0721750) / 1.00000) :=
    le_labF _ _ (by norm_num) (by norm_num) (by norm_num)
  have hfy2 : labF ((1 * 0.2126729 + 0 * 0.7151522 + 1 * 0.0721750) / 1.00000) ≤
      (0.657968 : ℝ) :=
    labF_le _ _ (by norm_num) (by norm_num) (by norm_num)
  exact ⟨by linarith, by linarith⟩

lemma white_L_lower : (100 : ℝ) ≤ (rgbToLab 255 255 255).l := by
  simp only [rgbToLab_eq_spec, rgbToLabSpec, xyzX, xyzY, xyzZ]
  rw [show ((255 : ℝ) / 255) = 1 by norm_num, srgbDecode_one]
  have hfy1 : (1 : ℝ) ≤
      labF ((1 * 0.2126729 + 1 * 0.7151522 + 1 * 0.0721750) / 1.00000) :=
    le_labF _ _ (by norm_num) (by norm_num) (by norm_num)
  linarith

lemma black_lab :
    (rgbToLab 0 0 0).l = 0 ∧ (rgbToLab 0 0 0).a = 0 ∧ (rgbToLab 0 0 0).b = 0 := by
  simp only [rgbToLab_eq_spec, rgbToLabSpec, xyzX, xyzY, xyzZ]
  rw [show ((0 : ℝ) / 255) = 0 by norm_num, srgbDecode_zero]
  rw [show ((0 * 0.4124564 + 0 * 0.3575761 + 0 * 0.1804375) / 0.95047 : ℝ) = 0
      by norm_num]
  rw [show ((0 * 0.2126729 + 0 * 0.7151522 + 0 * 0.0721750) / 1.00000 : ℝ) = 0
      by norm_num]
  rw [show ((0 * 0.0193339 + 0 * 0.1191920 + 0 * 0.9503041) / 1.08883 : ℝ) = 0
      by norm_num]
  have h0 : labF 0 = 16 / 116 := by
    unfold labF
    norm_num
  rw [h0]
  norm_num

lemma g128_lo : (0.21586 : ℝ) ≤ srgbDecode (128 / 255) := by
  unfold srgbDecode
  rw [if_pos (by norm_num)]
  exact le_rpow24 _ _ (by norm_num) (by norm_num) (by norm_num)

lemma g128_hi : srgbDecode (128 / 255) ≤ (0.215861 : ℝ) := by
  unfold srgbDecode
  rw [if_pos (by norm_num)]
  exact rpow24_le _ _ (by norm_num) (by norm_num) (by norm_num)

lemma div3_mono_lo (g lo c a2 a3 d : ℝ) (hg : lo ≤ g) (hc : 0 ≤ c) (hd : 0 < d) :
    (lo * c + a2 + a3) / d ≤ (g * c + a2 + a3) / d := by
  have h := mul_le_mul_of_nonneg_right hg hc
  gcongr

lemma div3_mono_hi (g hi c a2 a3 d : ℝ) (hg : g ≤ hi) (hc : 0 ≤ c) (hd : 0 < d) :
    (g * c + a2 + a3) / d ≤ (hi * c + a2 + a3) / d := by
  have h := mul_le_mul_of_nonneg_right hg hc
  gcongr

lemma inp_bounds :
    (40.9097 : ℝ) ≤ (rgbToLab 128 0 255).l ∧ (rgbToLab 128 0 255).l ≤ 40.9099 ∧
    (83.167 : ℝ) ≤ (rgbToLab 128 0 255).a ∧ (rgbToLab 128 0 255).a ≤ 83.1695 ∧
    (-93.2903 : ℝ) ≤ (rgbToLab 128 0 255).b ∧ (rgbToLab 128 0 255).b ≤ -93.2897 := by
  simp only [rgbToLab_eq_spec, rgbToLabSpec, xyzX, xyzY, xyzZ]
  rw [show ((255 : ℝ) / 255) = 1 by norm_num, show ((0 : ℝ) / 255) = 0 by norm_num,
    srgbDecode_one, srgbDecode_zero]
  have hfx1 : (0.656937 : ℝ) ≤
      labF ((srgbDecode (128 / 255) * 0.4124564 + 0 * 0.3575761 +
        1 * 0.1804375) / 0.95047) := by
    have hm := div3_mono_lo (srgbDecode (128 / 255)) 0.21586 0.4124564
      (0 * 0.3575761) (1 * 0.1804375) 0.95047 g128_lo (by norm_num) (by norm_num)
    apply le_labF
    · have hnum : (0.008856 : ℝ) <
          (0.21586 * 0.4124564 + 0 * 0.3575761 + 1 * 0.1804375) / 0.95047 := by norm_num
      linarith
    · norm_num
    · have hnum : (0.656937 : ℝ) ^ 3 ≤
          (0.21586 * 0.4124564 + 0 * 0.3575761 + 1 * 0.1804375) / 0.95047 := by norm_num
      linarith
  have hfx2 : labF ((srgbDecode (128 / 255) * 0.4124564 + 0 * 0.3575761 +
      1 * 0.1804375) / 0.95047) ≤ (0.656939 : ℝ) := by
    have hm := div3_mono_hi (srgbDecode (128 / 255)) 0.215861 0.4124564
      (0 * 0.3575761) (1 * 0.1804375) 0.95047 g128_hi (by norm_num) (by norm_num)
    have hm2 := div3_mono_lo (srgbDecode (128 / 255)) 0.21586 0.4124564
      (0 * 0.3575761) (1 * 0.1804375) 0.95047 g128_lo (by norm_num) (by norm_num)
    apply labF_le
    · have hnum : (0.008856 : ℝ) <
          (0.21586 * 0.4124564 + 0 * 0.3575761 + 1 * 0.1804375) / 0.95047 := by norm_num
      linarith
    · norm_num
    · have hnum : ((0.215861 * 0.4124564 + 0 * 0.3575761 + 1 * 0.1804375) / 0.95047 : ℝ) ≤
          (0.656939 : ℝ) ^ 3 := by norm_num
      linarith
  have hfy1 : (0.490601 : ℝ) ≤
      labF ((srgbDecode (128 / 255) * 0.2126729 + 0 * 0.7151522 +
        1 * 0.0721750) / 1.00000) := by
    have hm := div3_mono_lo (srgbDecode (128 / 255)) 0.21586 0.2126729
      (0 * 0.7151522) (1 * 0.0721750) 1.00000 g128_lo (by norm_num) (by norm_num)
    apply le_labF
    · have hnum : (0.008856 : ℝ) <
          (0.21586 * 0.2126729 + 0 * 0.7151522 + 1 * 0.0721750) / 1.00000 := by norm_num
      linarith
    · norm_num
    · have hnum : (0.490601 : ℝ) ^ 3 ≤
          (0.21586 * 0.2126729 + 0 * 0.7151522 + 1 * 0.0721750) / 1.00000 := by norm_num
      linarith
  have hfy2 : labF ((srgbDecode (128 / 255) * 0.2126729 + 0 * 0.7151522 +
      1 * 0.0721750) / 1.00000) ≤ (0.490602 : ℝ) := by
    have hm := div3_mono_hi (srgbDecode (128 / 255)) 0.215861 0.2126729
      (0 * 0.7151522) (1 * 0.0721750) 1.00000 g128_hi (by norm_num) (by norm_num)
    have hm2 := div3_mono_lo (srgbDecode (128 / 255)) 0.21586 0.2126729
      (0 * 0.7151522) (1 * 0.0721750) 1.00000 g128_lo (by norm_num) (by norm_num)
    apply labF_le
    · have hnum : (0.008856 : ℝ) <
          (0.21586 * 0.2126729 + 0 * 0.7151522 + 1 * 0.0721750) / 1.00000 := by norm_num
      linarith
    · norm_num
    · have hnum : ((0.215861 * 0.2126729 + 0 * 0.7151522 + 1 * 0.0721750) / 1.00000 : ℝ) ≤
          (0.490602 : ℝ) ^ 3 := by norm_num
      linarith
  have hfz1 : (0.957051 : ℝ) ≤
      labF ((srgbDecode (128 / 255) * 0.0193339 + 0 * 0.1191920 +
        1 * 0.9503041) / 1.08883) := by
    have hm := div3_mono_lo (srgbDecode (128 / 255)) 0.21586 0.0193339
      (0 * 0.1191920) (1 * 0.9503041) 1.08883 g128_lo (by norm_num) (by norm_num)
    apply le_labF
    · have hnum : (0.008856 : ℝ) <
          (0.21586 * 0.0193339 + 0 * 0.1191920 + 1 * 0.9503041) / 1.08883 := by norm_num
      linarith
    · norm_num
    · have hnum : (0.957051 : ℝ) ^ 3 ≤
          (0.21586 * 0.0193339 + 0 * 0.1191920 + 1 * 0.9503041) / 1.08883 := by norm_num
      linarith
  have hfz2 : labF ((srgbDecode (128 / 255) * 0.0193339 + 0 * 0.1191920 +
      1 * 0.9503041) / 1.08883) ≤ (0.957052 : ℝ) := by
    have hm := div3_mono_hi (srgbDecode (128 / 255)) 0.215861 0.0193339
      (0 * 0.1191920) (1 * 0.9503041) 1.08883 g128_hi (by norm_num) (by norm_num)
    have hm2 := div3_mono_lo (srgbDecode (128 / 255)) 0.21586 0.0193339
      (0 * 0.1191920) (1 * 0.9503041) 1.08883 g128_lo (by norm_num) (by norm_num)
    apply labF_le
    · have hnum : (0.008856 : ℝ) <
          (0.21586 * 0.0193339 + 0 * 0.1191920 + 1 * 0.9503041) / 1.08883 := by norm_num
      linarith
    · norm_num
    · have hnum : ((0.215861 * 0.0193339 + 0 * 0.1191920 + 1 * 0.9503041) / 1.08883 : ℝ) ≤
          (0.957052 : ℝ) ^ 3 := by norm_num
      linarith
  refine ⟨?_, ?_, ?_, ?_, ?_, ?_⟩ <;> linarith

/-! ### Interval-arithmetic conveniences for squares -/

lemma mul_self_ge_of_ge (x m : ℝ) (hm : 0 ≤ m) (h : m ≤ x) : m * m ≤ x * x :=
  mul_self_le_mul_self hm h

lemma mul_self_ge_of_le_neg (x m : ℝ) (hm : 0 ≤ m) (h : x ≤ -m) : m * m ≤ x * x := by
  nlinarith [mul_self_le_mul_self hm (show m ≤ -x by linarith)]

lemma mul_self_le_of_bounds (x m : ℝ) (h1 : -m ≤ x) (h2 : x ≤ m) : x * x ≤ m * m := by
  nlinarith [mul_nonneg (show (0 : ℝ) ≤ m - x by linarith)
    (show (0 : ℝ) ≤ m + x by linarith)]

lemma sq_le_of_bounds (x m : ℝ) (h1 : -m ≤ x) (h2 : x ≤ m) : x ^ 2 ≤ m ^ 2 := by
  nlinarith [mul_nonneg (show (0 : ℝ) ≤ m - x by linarith)
    (show (0 : ℝ) ≤ m + x by linarith)]

/-- Claim C8: pure red versus pure green scores above 50 under the composed
`rgbToLab` / `deltaE2000` pipeline. -/
theorem C8_red_green_deltaE_gt_50 :
    50 < deltaE2000 (rgbToLab 255 0 0) (rgbToLab 0 255 0) := by
  have hr := red_bounds
  have hg := green_bounds
  set R := rgbToLab (255 : ℝ) 0 0 with hRdef
  set G := rgbToLab (0 : ℝ) 255 0 with hGdef
  obtain ⟨hLr1, hLr2, hAr1, hAr2, hBr1, hBr2⟩ := hr
  obtain ⟨hAg1, hAg2, hBg1, hBg2⟩ := hg
  -- chroma of red
  have hc1_lo : (104.549 : ℝ) ≤ Real.sqrt (R.a * R.a + R.b * R.b) := by
    apply le_sqrt_of _ _ (by norm_num)
    have m1 := mul_self_ge_of_ge R.a 80.091 (by norm_num) hAr1
    have m2 := mul_self_ge_of_ge R.b 67.202 (by norm_num) hBr1
    have hnum : (104.549 : ℝ) ^ 2 ≤ 80.091 * 80.091 + 67.202 * 67.202 := by
      norm_num
    linarith
  have hc1_hi : Real.sqrt (R.a * R.a + R.b * R.b) ≤ (104.554 : ℝ) := by
    apply sqrt_le_of _ _ (by norm_num)
    have m1 := mul_self_le_of_bounds R.a 80.094 (by linarith) hAr2
    have m2 := mul_self_le_of_bounds R.b 67.204 (by linarith) hBr2
    have hnum : (80.094 * 80.094 + 67.204 * 67.204 : ℝ) ≤ 104.554 ^ 2 := by
      norm_num
    linarith
  -- chroma of green
  have hc2_lo : (119.771 : ℝ) ≤ Real.sqrt (G.a * G.a + G.b * G.b) := by
    apply le_sqrt_of _ _ (by norm_num)
    have m1 := mul_self_ge_of_le_neg G.a 86.181 (by norm_num) hAg2
    have m2 := mul_self_ge_of_ge G.b 83.178 (by norm_num) hBg1
    have hnum : (119.771 : ℝ) ^ 2 ≤ 86.181 * 86.181 + 83.178 * 83.178 := by
      norm_num
    linarith
  have hc2_hi : Real.sqrt (G.a * G.a + G.b * G.b) ≤ (119.778 : ℝ) := by
    apply sqrt_le_of _ _ (by norm_num)
    have m1 := mul_self_le_of_bounds G.a 86.184 hAg1 (by linarith)
    have m2 := mul_self_le_of_bounds G.b 83.180 (by linarith) hBg2
    have hnum : (86.184 * 86.184 + 83.180 * 83.180 : ℝ) ≤ 119.778 ^ 2 := by
      norm_num
    linarith
  -- the hue square-root argument is at least 166.29 ^ 2
  have hdc_sq : (Real.sqrt (R.a * R.a + R.b * R.b) -
      Real.sqrt (G.a * G.a + G.b * G.b)) *
      (Real.sqrt (R.a * R.a + R.b * R.b) -
        Real.sqrt (G.a * G.a + G.b * G.b)) ≤ 15.229 * 15.229 := by
    apply mul_self_le_of_bounds
    · linarith
    · linarith
  have hda : (166.272 : ℝ) * 166.272 ≤ (R.a - G.a) * (R.a - G.a) := by
    apply mul_self_ge_of_ge _ _ (by norm_num)
    linarith
  have hdb : (15.974 : ℝ) * 15.974 ≤ (R.b - G.b) * (R.b - G.b) := by
    apply mul_self_ge_of_le_neg _ _ (by norm_num)
    linarith
  have hdh : (166.29 : ℝ) ≤
      Real.sqrt ((R.a - G.a) * (R.a - G.a) + (R.b - G.b) * (R.b - G.b) -
        (Real.sqrt (R.a * R.a + R.b * R.b) -
          Real.sqrt (G.a * G.a + G.b * G.b)) *
        (Real.sqrt (R.a * R.a + R.b * R.b) -
          Real.sqrt (G.a * G.a + G.b * G.b))) := by
    apply le_sqrt_of _ _ (by norm_num)
    have hnum : (166.29 : ℝ) ^ 2 ≤
        166.272 * 166.272 + 15.974 * 15.974 - 15.229 * 15.229 := by norm_num
    linarith
  have hsh : 1 + 0.015 * Real.sqrt (R.a * R.a + R.b * R.b) ≤ (2.56831 : ℝ) := by
    linarith
  have hsh_pos : (0 : ℝ) < 1 + 0.015 * Real.sqrt (R.a * R.a + R.b * R.b) := by
    have := Real.sqrt_nonneg (R.a * R.a + R.b * R.b)
    linarith
  have hfin : (50 : ℝ) <
      Real.sqrt ((R.a - G.a) * (R.a - G.a) + (R.b - G.b) * (R.b - G.b) -
        (Real.sqrt (R.a * R.a + R.b * R.b) -
          Real.sqrt (G.a * G.a + G.b * G.b)) *
        (Real.sqrt (R.a * R.a + R.b * R.b) -
          Real.sqrt (G.a * G.a + G.b * G.b))) /
      (1 + 0.015 * Real.sqrt (R.a * R.a + R.b * R.b)) := by
    rw [lt_div_iff₀ hsh_pos]
    linarith
  exact lt_of_lt_of_le hfin (deltaE_ge_hue R G)

/-! ### Claims C2, C3, C10 -/

/-- Claim C2, counterexample: `deltaE2000` is not symmetric.  At the Lab pair
(0,10,0) and (0,0,0) the two orientations give 200/29 (about 6.9) and 10,
a discrepancy of about 3.1 — far beyond floating-point tolerance. -/
theorem C2_counterexample :
    deltaE2000 ⟨0, 10, 0⟩ ⟨0, 0, 0⟩ = 200 / 29 ∧
    deltaE2000 ⟨0, 0, 0⟩ ⟨0, 10, 0⟩ = 10 := by
  have hsA : Real.sqrt ((10 : ℝ) * 10 + 0 * 0) = 10 := by
    rw [show ((10 : ℝ) * 10 + 0 * 0) = 10 ^ 2 by norm_num]
    exact Real.sqrt_sq (by norm_num)
  have hsB : Real.sqrt ((0 : ℝ) * 0 + 0 * 0) = 0 := by
    rw [show ((0 : ℝ) * 0 + 0 * 0) = (0 : ℝ) by norm_num]
    exact Real.sqrt_zero
  constructor
  · rw [deltaE_eq]
    show Real.sqrt ((((0 : ℝ) - 0) / 1) ^ 2 +
      ((Real.sqrt ((10 : ℝ) * 10 + 0 * 0) - Real.sqrt ((0 : ℝ) * 0 + 0 * 0)) /
        (1 + 0.045 * Real.sqrt ((10 : ℝ) * 10 + 0 * 0))) ^ 2 +
      (Real.sqrt (((10 : ℝ) - 0) * ((10 : ℝ) - 0) +
          ((0 : ℝ) - 0) * ((0 : ℝ) - 0) -
          (Real.sqrt ((10 : ℝ) * 10 + 0 * 0) - Real.sqrt ((0 : ℝ) * 0 + 0 * 0)) *
          (Real.sqrt ((10 : ℝ) * 10 + 0 * 0) -
            Real.sqrt ((0 : ℝ) * 0 + 0 * 0))) /
        (1 + 0.015 * Real.sqrt ((10 : ℝ) * 10 + 0 * 0))) ^ 2) = 200 / 29
    rw [hsA, hsB]
    rw [show ((10 : ℝ) - 0) * ((10 : ℝ) - 0) + ((0 : ℝ) - 0) * ((0 : ℝ) - 0) -
        ((10 : ℝ) - 0) * ((10 : ℝ) - 0) = 0 by norm_num]
    rw [Real.sqrt_zero]
    rw [show (((0 : ℝ) - 0) / 1) ^ 2 +
        (((10 : ℝ) - 0) / (1 + 0.045 * 10)) ^ 2 +
        ((0 : ℝ) / (1 + 0.015 * 10)) ^ 2 = (200 / 29 : ℝ) ^ 2 by norm_num]
    exact Real.sqrt_sq (by norm_num)
  · rw [deltaE_eq]
    show Real.sqrt ((((0 : ℝ) - 0) / 1) ^ 2 +
      ((Real.sqrt ((0 : ℝ) * 0 + 0 * 0) - Real.sqrt ((10 : ℝ) * 10 + 0 * 0)) /
        (1 + 0.045 * Real.sqrt ((0 : ℝ) * 0 + 0 * 0))) ^ 2 +
      (Real.sqrt (((0 : ℝ) - 10) * ((0 : ℝ) - 10) +
          ((0 : ℝ) - 0) * ((0 : ℝ) - 0) -
          (Real.sqrt ((0 : ℝ) * 0 + 0 * 0) - Real.sqrt ((10 : ℝ) * 10 + 0 * 0)) *
          (Real.sqrt ((0 : ℝ) * 0 + 0 * 0) -
            Real.sqrt ((10 : ℝ) * 10 + 0 * 0))) /
        (1 + 0.015 * Real.sqrt ((0 : ℝ) * 0 + 0 * 0))) ^ 2) = 10
    rw [hsA, hsB]
    rw [show ((0 : ℝ) - 10) * ((0 : ℝ) - 10) + ((0 : ℝ) - 0) * ((0 : ℝ) - 0) -
        ((0 : ℝ) - 10) * ((0 : ℝ) - 10) = 0 by norm_num]
    rw [Real.sqrt_zero]
    rw [show (((0 : ℝ) - 0) / 1) ^ 2 +
        (((0 : ℝ) - 10) / (1 + 0.045 * 0)) ^ 2 +
        ((0 : ℝ) / (1 + 0.015 * 0)) ^ 2 = (10 : ℝ) ^ 2 by norm_num]
    exact Real.sqrt_sq (by norm_num)

/-- Equal chroma makes `deltaE2000` symmetric: with the two chroma radii
identified, all three summands agree up to sign-squaring. -/
lemma deltaE_symm_of_chroma_eq (l1 l2 : LAB)
    (hc : Real.sqrt (l1.a * l1.a + l1.b * l1.b) =
      Real.sqrt (l2.a * l2.a + l2.b * l2.b)) :
    deltaE2000 l1 l2 = deltaE2000 l2 l1 := by
  rw [deltaE_eq, deltaE_eq, hc]
  have hinner : (l1.a - l2.a) * (l1.a - l2.a) + (l1.b - l2.b) * (l1.b - l2.b) -
      (Real.sqrt (l2.a * l2.a + l2.b * l2.b) -
        Real.sqrt (l2.a * l2.a + l2.b * l2.b)) *
      (Real.sqrt (l2.a * l2.a + l2.b * l2.b) -
        Real.sqrt (l2.a * l2.a + l2.b * l2.b)) =
      (l2.a - l1.a) * (l2.a - l1.a) + (l2.b - l1.b) * (l2.b - l1.b) -
      (Real.sqrt (l2.a * l2.a + l2.b * l2.b) -
        Real.sqrt (l2.a * l2.a + l2.b * l2.b)) *
      (Real.sqrt (l2.a * l2.a + l2.b * l2.b) -
        Real.sqrt (l2.a * l2.a + l2.b * l2.b)) := by ring
  rw [hinner]
  have houter : ((l1.l - l2.l) / 1 : ℝ) ^ 2 = ((l2.l - l1.l) / 1) ^ 2 := by ring
  rw [houter]

/-- Strictly smaller first-argument chroma gives a strictly larger distance:
the lightness summand and the hue/chroma numerators are orientation
independent, while the weights `sc` and `sh` grow with the first argument's
chroma, shrinking both weighted summands in the same direction. -/
lemma deltaE_lt_of_chroma_lt (l1 l2 : LAB)
    (h : Real.sqrt (l1.a * l1.a + l1.b * l1.b) <
      Real.sqrt (l2.a * l2.a + l2.b * l2.b)) :
    deltaE2000 l2 l1 < deltaE2000 l1 l2 := by
  rw [deltaE_eq, deltaE_eq]
  set c1 := Real.sqrt (l1.a * l1.a + l1.b * l1.b) with hc1
  set c2 := Real.sqrt (l2.a * l2.a + l2.b * l2.b) with hc2
  have hc1n : (0 : ℝ) ≤ c1 := by rw [hc1]; exact Real.sqrt_nonneg _
  have hc2n : (0 : ℝ) ≤ c2 := by rw [hc2]; exact Real.sqrt_nonneg _
  apply Real.sqrt_lt_sqrt (by positivity)
  have hL : ((l2.l - l1.l) / 1 : ℝ) ^ 2 = ((l1.l - l2.l) / 1) ^ 2 := by ring
  have harg : (l2.a - l1.a) * (l2.a - l1.a) + (l2.b - l1.b) * (l2.b - l1.b) -
      (c2 - c1) * (c2 - c1) =
      (l1.a - l2.a) * (l1.a - l2.a) + (l1.b - l2.b) * (l1.b - l2.b) -
      (c1 - c2) * (c1 - c2) := by ring
  rw [hL, harg]
  have hscsq : (1 + 0.045 * c1) ^ 2 < (1 + 0.045 * c2) ^ 2 :=
    pow_lt_pow_left₀ (by linarith) (by linarith) (by norm_num : (2 : ℕ) ≠ 0)
  have hshsq : (1 + 0.015 * c1) ^ 2 < (1 + 0.015 * c2) ^ 2 :=
    pow_lt_pow_left₀ (by linarith) (by linarith) (by norm_num : (2 : ℕ) ≠ 0)
  have hD : (0 : ℝ) < (c1 - c2) ^ 2 :=
    pow_two_pos_of_ne_zero (sub_ne_zero.mpr (ne_of_lt h))
  have h2 : ((c2 - c1) / (1 + 0.045 * c2)) ^ 2 <
      ((c1 - c2) / (1 + 0.045 * c1)) ^ 2 := by
    rw [div_pow, div_pow]
    rw [show ((c2 - c1) : ℝ) ^ 2 = (c1 - c2) ^ 2 by ring]
    exact div_lt_div_of_pos_left hD (by positivity) hscsq
  have h3 : (Real.sqrt ((l1.a - l2.a) * (l1.a - l2.a) +
        (l1.b - l2.b) * (l1.b - l2.b) - (c1 - c2) * (c1 - c2)) /
      (1 + 0.015 * c2)) ^ 2 ≤
      (Real.sqrt ((l1.a - l2.a) * (l1.a - l2.a) +
        (l1.b - l2.b) * (l1.b - l2.b) - (c1 - c2) * (c1 - c2)) /
      (1 + 0.015 * c1)) ^ 2 := by
    rw [div_pow, div_pow]
    apply div_le_div_of_nonneg_left (sq_nonneg _) (by positivity)
    exact le_of_lt hshsq
  linarith

/-- Claim C2, amended: `deltaE2000 a a = 0` always holds, and the distance is
symmetric exactly when the two colors have equal chroma (the weighting
factors depend only on the first argument's chroma, which is the sole source
of asymmetry; with unequal chroma both weighted summands shift strictly the
same way). -/
theorem C2_amended :
    (∀ lab : LAB, deltaE2000 lab lab = 0) ∧
    ∀ l1 l2 : LAB,
      deltaE2000 l1 l2 = deltaE2000 l2 l1 ↔
      Real.sqrt (l1.a * l1.a + l1.b * l1.b) =
        Real.sqrt (l2.a * l2.a + l2.b * l2.b) := by
  refine ⟨deltaE_self, ?_⟩
  intro l1 l2
  constructor
  · intro hsym
    by_contra hne
    rcases lt_or_gt_of_ne hne with hlt | hgt
    · have := deltaE_lt_of_chroma_lt l1 l2 hlt
      linarith
    · have := deltaE_lt_of_chroma_lt l2 l1 hgt
      linarith
  · exact deltaE_symm_of_chroma_eq l1 l2

/-- Witness for C2's amended claim at an equal-chroma pair. -/
theorem C2_amended_witness :
    deltaE2000 ⟨1, 3, 4⟩ ⟨2, 4, 3⟩ = deltaE2000 ⟨2, 4, 3⟩ ⟨1, 3, 4⟩ :=
  (C2_amended.2 ⟨1, 3, 4⟩ ⟨2, 4, 3⟩).mpr (by norm_num)

/-- Claim C3: `rgbToLab` is the composition of sRGB gamma decoding with
threshold 0.04045, the fixed D65 XYZ matrix, and the piecewise
cube-root/linear Lab curve with breakpoint 0.008856, exactly as the staged
spec description states. -/
theorem C3_rgbToLab_structure (r g b : ℝ) (h1 : 0 ≤ r) (h2 : r ≤ 255)
    (h3 : 0 ≤ g) (h4 : g ≤ 255) (h5 : 0 ≤ b) (h6 : b ≤ 255) :
    rgbToLab r g b = rgbToLabSpec r g b :=
  rgbToLab_eq_spec r g b

/-- Witness for C3 at a concrete in-range channel triple. -/
theorem C3_witness : rgbToLab 12 200 3 = rgbToLabSpec 12 200 3 :=
  C3_rgbToLab_structure 12 200 3 (by norm_num) (by norm_num) (by norm_num)
    (by norm_num) (by norm_num) (by norm_num)

/-- Claim C10: for all Lab pairs the argument of the residual-hue square
root is non-negative (reverse triangle inequality in the (a,b) plane), and
`deltaE2000` is a total non-negative function. -/
theorem C10_sqrt_args_nonneg (l1 l2 : LAB) :
    (0 ≤ (l1.a - l2.a) * (l1.a - l2.a) + (l1.b - l2.b) * (l1.b - l2.b) -
      (Real.sqrt (l1.a * l1.a + l1.b * l1.b) -
        Real.sqrt (l2.a * l2.a + l2.b * l2.b)) *
      (Real.sqrt (l1.a * l1.a + l1.b * l1.b) -
        Real.sqrt (l2.a * l2.a + l2.b * l2.b))) ∧
    0 ≤ deltaE2000 l1 l2 :=
  ⟨hueArg_nonneg l1 l2, deltaE_nonneg l1 l2⟩

/-! ### Claim C1 -/

/-- For the input RGB (128,0,255), the table's blue entry is strictly closer
in `deltaE2000` than its magenta entry. -/
lemma inp_blue_lt_inp_magenta :
    deltaE2000 (rgbToLab 128 0 255) (rgbToLab 0 0 255) <
      deltaE2000 (rgbToLab 128 0 255) (rgbToLab 255 0 255) := by
  have hi := inp_bounds
  have hb := blue_bounds
  have hm := magenta_L_bounds
  set I := rgbToLab (128 : ℝ) 0 255 with hIdef
  set B := rgbToLab (0 : ℝ) 0 255 with hBdef
  set M := rgbToLab (255 : ℝ) 0 255 with hMdef
  obtain ⟨hLi1, hLi2, hAi1, hAi2, hBi1, hBi2⟩ := hi
  obtain ⟨hLb1, hLb2, hAb1, hAb2, hBb1, hBb2⟩ := hb
  obtain ⟨hLm1, hLm2⟩ := hm
  -- upper bound on the distance to blue
  have hub : deltaE2000 I B ≤ 17.41 := by
    have hcrude := deltaE_le_crude I B
    have h1 : (I.l - B.l) ^ 2 ≤ (8.613 : ℝ) ^ 2 := by
      apply sq_le_of_bounds <;> linarith
    have h2 : (I.a - B.a) ^ 2 ≤ (3.9835 : ℝ) ^ 2 := by
      apply sq_le_of_bounds <;> linarith
    have h3 : (I.b - B.b) ^ 2 ≤ (14.5713 : ℝ) ^ 2 := by
      apply sq_le_of_bounds <;> linarith
    have hs : Real.sqrt ((I.l - B.l) ^ 2 + (I.a - B.a) ^ 2 + (I.b - B.b) ^ 2) ≤
        17.41 := by
      apply sqrt_le_of _ _ (by norm_num)
      have hnum : (8.613 : ℝ) ^ 2 + 3.9835 ^ 2 + 14.5713 ^ 2 ≤ 17.41 ^ 2 := by
        norm_num
      linarith
    linarith
  -- lower bound on the distance to magenta
  have hlb : (19.4142 : ℝ) ≤ deltaE2000 I M := by
    have habs := deltaE_ge_abs_dL I M
    have hneg : -(I.l - M.l) ≤ |I.l - M.l| := neg_le_abs _
    linarith
  linarith

/-- Claim C1, counterexample: on input "8000FF" (RGB 128,0,255) the lookup
returns the magenta entry, yet the blue entry has strictly smaller
`deltaE2000` distance to the input — the returned entry does not minimise
the Lab perceptual distance, because the source scans with plain Euclidean
RGB distance. -/
theorem C1_counterexample :
    findNearestColorName "8000FF" =
      some ⟨"magenta", "#FF00FF", (255, 0, 255)⟩ ∧
    deltaE2000 (rgbToLab 128 0 255) (rgbToLab 0 0 255) <
      deltaE2000 (rgbToLab 128 0 255) (rgbToLab 255 0 255) := by
  constructor
  · rw [findNearest_eq_sq "8000FF" 128 0 255 (by decide)]
    decide
  · exact inp_blue_lt_inp_magenta

/-- Claim C1, amended: for every well-formed hex input the lookup parses the
string to an RGB triple and returns the first entry of the table attaining
the minimum Euclidean RGB distance (no Lab conversion; ties broken by first
occurrence in table order). -/
theorem C1_amended (s : String) (r g b : ℕ)
    (h : parseHex s = some (r, g, b)) :
    findNearestColorName s = firstMinBy (rgbDist r g b) colorNames :=
  findNearest_eq_firstMin s r g b h

/-- Witness for C1's amended claim at the input "123456". -/
theorem C1_amended_witness :
    findNearestColorName "123456" = firstMinBy (rgbDist 18 52 86) colorNames :=
  C1_amended "123456" 18 52 86 (by decide)

/-! ### Claims C6 and C7 -/

/-- Claim C6: the lookup returns a result for every well-formed input — the
reference table is non-empty, so the scan always produces an entry. -/
theorem C6_wellformed_total (s : String) (h : wellFormed s) :
    ∃ c, findNearestColorName s = some c := by
  obtain ⟨v, hv⟩ := (parseHex_some_iff s).mpr h
  obtain ⟨r, g, b⟩ := v
  unfold findNearestColorName
  rw [hv]
  show ∃ c, (List.foldl (nearestStep r g b) none colorNames).map Prod.fst = some c
  obtain ⟨c0, rest, hc⟩ : ∃ c0 rest, colorNames = c0 :: rest := ⟨_, _, rfl⟩
  rw [hc]
  simp only [List.foldl_cons]
  rw [show nearestStep r g b none c0 = some (c0, rgbDist r g b c0) from rfl]
  obtain ⟨q, hq⟩ := foldl_some r g b rest (c0, rgbDist r g b c0)
  rw [hq]
  exact ⟨q.1, rfl⟩

/-- Witness for C6 at the well-formed input "123abc". -/
theorem C6_witness : ∃ c, findNearestColorName "123abc" = some c :=
  C6_wellformed_total "123abc" ⟨['1', '2', '3', 'a', 'b', 'c'],
    Or.inr rfl, rfl, by decide⟩

/-- Claim C7: `hexToRgb` fails (and `findNearestColorName` returns null)
exactly on the strings that do not match an optional '#' followed by six
case-insensitive hex digits; on every well-formed string both succeed. -/
theorem C7_reject_iff_malformed (s : String) :
    (hexToRgb s = none ↔ ¬ wellFormed s) ∧
    (findNearestColorName s = none ↔ ¬ wellFormed s) := by
  have hp := parseHex_none_iff s
  have h1 : hexToRgb s = none ↔ parseHex s = none := by
    unfold hexToRgb
    cases hps : parseHex s with
    | none => simp
    | some v =>
      obtain ⟨r, g, b⟩ := v
      simp
  have h2 : findNearestColorName s = none ↔ parseHex s = none := by
    unfold findNearestColorName
    cases hps : parseHex s with
    | none => simp
    | some v =>
      obtain ⟨r, g, b⟩ := v
      have hne : (List.foldl (nearestStep r g b) none colorNames).map
          Prod.fst ≠ none := by
        obtain ⟨c0, rest, hc⟩ : ∃ c0 rest, colorNames = c0 :: rest := ⟨_, _, rfl⟩
        rw [hc]
        simp only [List.foldl_cons]
        rw [show nearestStep r g b none c0 = some (c0, rgbDist r g b c0) from rfl]
        obtain ⟨q, hq⟩ := foldl_some r g b rest (c0, rgbDist r g b c0)
        rw [hq]
        simp
      constructor
      · intro hcon
        exact absurd hcon hne
      · intro hcon
        exact absurd hcon (by simp)
  exact ⟨h1.trans hp, h2.trans hp⟩

/-- Witness for C7 at the malformed empty string. -/
theorem C7_witness : hexToRgb "" = none ∧ findNearestColorName "" = none := by
  have h := C7_reject_iff_malformed ""
  have hnw : ¬ wellFormed "" := by
    rintro ⟨t, hor, hlen, -⟩
    rcases hor with h1 | h1
    · rw [show ("" : String).data = [] from rfl] at h1
      cases h1
    · rw [show ("" : String).data = [] from rfl] at h1
      rw [← h1] at hlen
      simp at hlen
  exact ⟨h.1.mpr hnw, h.2.mpr hnw⟩

/-! ### Claim C9 -/

/-- Spec wording: a lowercase hexadecimal digit (the case actually produced
by the JavaScript `toString(16)` encoder). -/
def isLowerHex (c : Char) : Prop :=
  ('0' ≤ c ∧ c ≤ '9') ∨ ('a' ≤ c ∧ c ≤ 'f')

instance (c : Char) : Decidable (isLowerHex c) := by
  unfold isLowerHex; infer_instance

lemma hexVal_toHexDigit : ∀ d < 16, hexVal? (toHexDigit d) = some d := by decide

lemma toHexDigit_lower : ∀ d < 16, isLowerHex (toHexDigit d) := by decide

lemma padTwo_byteToHex (n : ℕ) (h : n ≤ 255) :
    padTwo (byteToHex n) = [toHexDigit (n / 16), toHexDigit (n % 16)] := by
  unfold byteToHex padTwo
  by_cases h16 : n < 16
  · rw [if_pos h16]
    rw [if_pos (by simp)]
    rw [Nat.div_eq_of_lt h16, Nat.mod_eq_of_lt h16]
    rfl
  · rw [if_neg h16]
    rw [if_neg (by simp)]

lemma div16_lt (n : ℕ) (h : n ≤ 255) : n / 16 < 16 := by omega

lemma mod16_lt (n : ℕ) : n % 16 < 16 := Nat.mod_lt _ (by norm_num)

/-- Claim C9: `rgbToHex` emits a '#'-prefixed, zero-padded string of six
lowercase hex digits, and `hexToRgb` recovers exactly the input channels. -/
theorem C9_roundtrip (r g b : ℕ) (hr : r ≤ 255) (hg : g ≤ 255) (hb : b ≤ 255) :
    (∃ t, (rgbToHex r g b).data = '#' :: t ∧ t.length = 6 ∧
      ∀ c ∈ t, isLowerHex c) ∧
    hexToRgb (rgbToHex r g b) = some ⟨r, g, b⟩ := by
  have hdata : (rgbToHex r g b).data = '#' ::
      ([toHexDigit (r / 16), toHexDigit (r % 16)] ++
        [toHexDigit (g / 16), toHexDigit (g % 16)] ++
        [toHexDigit (b / 16), toHexDigit (b % 16)]) := by
    show ('#' :: (padTwo (byteToHex r) ++ padTwo (byteToHex g) ++
      padTwo (byteToHex b))) = _
    rw [padTwo_byteToHex r hr, padTwo_byteToHex g hg, padTwo_byteToHex b hb]
  constructor
  · refine ⟨[toHexDigit (r / 16), toHexDigit (r % 16), toHexDigit (g / 16),
      toHexDigit (g % 16), toHexDigit (b / 16), toHexDigit (b % 16)], ?_, rfl, ?_⟩
    · rw [hdata]
      simp
    · intro c hc
      simp only [List.mem_cons, List.not_mem_nil, or_false] at hc
      rcases hc with rfl | rfl | rfl | rfl | rfl | rfl
      · exact toHexDigit_lower _ (div16_lt r hr)
      · exact toHexDigit_lower _ (mod16_lt r)
      · exact toHexDigit_lower _ (div16_lt g hg)
      · exact toHexDigit_lower _ (mod16_lt g)
      · exact toHexDigit_lower _ (div16_lt b hb)
      · exact toHexDigit_lower _ (mod16_lt b)
  · unfold hexToRgb parseHex
    rw [hdata, stripHash_cons, if_pos rfl]
    simp only [List.cons_append, List.nil_append]
    rw [hexVal_toHexDigit _ (div16_lt r hr), hexVal_toHexDigit _ (mod16_lt r),
      hexVal_toHexDigit _ (div16_lt g hg), hexVal_toHexDigit _ (mod16_lt g),
      hexVal_toHexDigit _ (div16_lt b hb), hexVal_toHexDigit _ (mod16_lt b)]
    have hr2 : 16 * (r / 16) + r % 16 = r := Nat.div_add_mod r 16
    have hg2 : 16 * (g / 16) + g % 16 = g := Nat.div_add_mod g 16
    have hb2 : 16 * (b / 16) + b % 16 = b := Nat.div_add_mod b 16
    show some (⟨16 * (r / 16) + r % 16, 16 * (g / 16) + g % 16,
      16 * (b / 16) + b % 16⟩ : RGB) = some ⟨r, g, b⟩
    rw [hr2, hg2, hb2]

/-- Witness for C9 at the channels (255, 0, 17). -/
theorem C9_witness :
    (∃ t, (rgbToHex 255 0 17).data = '#' :: t ∧ t.length = 6 ∧
      ∀ c ∈ t, isLowerHex c) ∧
    hexToRgb (rgbToHex 255 0 17) = some ⟨255, 0, 17⟩ :=
  C9_roundtrip 255 0 17 (by norm_num) (by norm_num) (by norm_num)

/-! ### Claim C4: the deduplication invariant -/

lemma findPartner_none (x : PaletteEntry) (l : List PaletteEntry)
    (h : findPartner x l = none) : ∀ y ∈ l, ¬ closePair x y := by
  induction l with
  | nil => intro y hy; cases hy
  | cons z rest ih =>
    intro y hy
    unfold findPartner at h
    by_cases hc : closePair x z
    · rw [if_pos hc] at h
      exact Option.noConfusion h
    · rw [if_neg hc] at h
      have hm : findPartner x rest = none := by
        cases hfp : findPartner x rest with
        | none => rfl
        | some p => rw [hfp] at h; simp at h
      rcases List.mem_cons.mp hy with rfl | hy2
      · exact hc
      · exact ih hm y hy2

lemma findPartner_length (x : PaletteEntry) :
    ∀ l y rest, findPartner x l = some (y, rest) → rest.length + 1 = l.length := by
  intro l
  induction l with
  | nil => intro y rest h; cases h
  | cons z zs ih =>
    intro y rest h
    unfold findPartner at h
    by_cases hc : closePair x z
    · rw [if_pos hc] at h
      have h2 : (z, zs) = (y, rest) := Option.some.inj h
      cases h2
      simp
    · rw [if_neg hc] at h
      cases hfp : findPartner x zs with
      | none => rw [hfp] at h; simp at h
      | some p =>
        rw [hfp] at h
        obtain ⟨py, prest⟩ := p
        simp only [Option.map_some'] at h
        have h2 : (py, z :: prest) = (y, rest) := Option.some.inj h
        have h3 := ih py prest hfp
        have hr : z :: prest = rest := congrArg Prod.snd h2
        rw [← hr]
        simp only [List.length_cons]
        omega

lemma mergePass_none_pairwise (l : List PaletteEntry) (h : mergePass l = none) :
    l.Pairwise (fun a b => ¬ closePair a b) := by
  induction l with
  | nil => exact List.Pairwise.nil
  | cons x xs ih =>
    unfold mergePass at h
    cases hfp : findPartner x xs with
    | some p =>
      obtain ⟨y, rest⟩ := p
      rw [hfp] at h
      exact Option.noConfusion h
    | none =>
      rw [hfp] at h
      have hm : mergePass xs = none := by
        cases hmp : mergePass xs with
        | none => rfl
        | some l2 => rw [hmp] at h; simp at h
      exact List.Pairwise.cons (findPartner_none x xs hfp) (ih hm)

lemma mergePass_some_length :
    ∀ l l2 : List PaletteEntry, mergePass l = some l2 → l2.length < l.length := by
  intro l
  induction l with
  | nil => intro l2 h; cases h
  | cons x xs ih =>
    intro l2 h
    unfold mergePass at h
    cases hfp : findPartner x xs with
    | some p =>
      obtain ⟨y, rest⟩ := p
      rw [hfp] at h
      have h2 : mergeEntries x y :: rest = l2 := Option.some.inj h
      have hlen := findPartner_length x xs y rest hfp
      rw [← h2]
      simp only [List.length_cons]
      omega
    | none =>
      rw [hfp] at h
      cases hmp : mergePass xs with
      | none => rw [hmp] at h; simp at h
      | some l3 =>
        rw [hmp] at h
        simp only [Option.map_some'] at h
        have h2 : x :: l3 = l2 := Option.some.inj h
        have := ih l3 hmp
        rw [← h2]
        simp only [List.length_cons]
        omega

lemma dedupLoop_pairwise : ∀ n : ℕ, ∀ l : List PaletteEntry, l.length ≤ n →
    (dedupLoop n l).Pairwise (fun a b => ¬ closePair a b) := by
  intro n
  induction n with
  | zero =>
    intro l hl
    have h0 : l = [] := List.eq_nil_of_length_eq_zero (Nat.le_zero.mp hl)
    subst h0
    exact List.Pairwise.nil
  | succ n ih =>
    intro l hl
    cases hmp : mergePass l with
    | none =>
      have heq : dedupLoop (n + 1) l = l := by
        show (match mergePass l with
          | none => l
          | some l2 => dedupLoop n l2) = l
        rw [hmp]
      rw [heq]
      exact mergePass_none_pairwise l hmp
    | some l2 =>
      have heq : dedupLoop (n + 1) l = dedupLoop n l2 := by
        show (match mergePass l with
          | none => l
          | some l3 => dedupLoop n l3) = dedupLoop n l2
        rw [hmp]
      rw [heq]
      have hlen := mergePass_some_length l l2 hmp
      exact ih l2 (by omega)

/-- Claim C4: after the deduplication pass terminates, every pair of
distinct surviving palette entries is at perceptual distance at least 5.0
(in both orientations of the asymmetric source metric). -/
theorem C4_dedup_invariant (l : List PaletteEntry) :
    (dedupPalette l).Pairwise
      (fun a b => 5 ≤ deltaE2000 a.lab b.lab ∧ 5 ≤ deltaE2000 b.lab a.lab) := by
  have h := dedupLoop_pairwise l.length l le_rfl
  unfold dedupPalette
  refine List.Pairwise.imp ?_ h
  intro a b hab
  unfold closePair at hab
  push_neg at hab
  exact hab

/-! ### Claim C5 -/

lemma foldl_nearestLab_stay (lab : LAB) (l : List ColorName) (c0 : ColorName) :
    l.foldl (nearestLabStep lab) (some (c0, 0)) = some (c0, 0) := by
  induction l with
  | nil => rfl
  | cons c rest ih =>
    simp only [List.foldl_cons]
    rw [show nearestLabStep lab (some (c0, 0)) c =
      if deltaE2000 lab (labOf c) < 0 then some (c, deltaE2000 lab (labOf c))
      else some (c0, 0) from rfl]
    rw [if_neg (not_lt.mpr (deltaE_nonneg lab (labOf c)))]
    exact ih

/-- Claim C5: the (spec-modelled) `nameForHex` endpoint maps "FF0000" to the
"red" entry with reported distance exactly 0, since "red" is in the index
verbatim. -/
theorem C5_nameForHex_red : nameForHex "FF0000" = some ("red", 0) := by
  have hparse : parseHex "FF0000" = some (255, 0, 0) := by decide
  unfold nameForHex
  rw [hparse]
  show (match colorNames.foldl
      (nearestLabStep (rgbToLab ((255 : ℕ) : ℝ) ((0 : ℕ) : ℝ) ((0 : ℕ) : ℝ)))
      none with
    | none => none
    | some (c, d) => some (c.name, d)) = some ("red", 0)
  set lab := rgbToLab ((255 : ℕ) : ℝ) ((0 : ℕ) : ℝ) ((0 : ℕ) : ℝ) with hlab
  have hcast : lab = rgbToLab (255 : ℝ) 0 0 := by
    rw [hlab]
    norm_num
  have hblack : labOf ⟨"black", "#000000", (0, 0, 0)⟩ = rgbToLab (0 : ℝ) 0 0 := by
    unfold labOf
    norm_num
  have hwhite : labOf ⟨"white", "#FFFFFF", (255, 255, 255)⟩ =
      rgbToLab (255 : ℝ) 255 255 := by
    unfold labOf
    norm_num
  have hdblack : 0 < deltaE2000 lab (labOf ⟨"black", "#000000", (0, 0, 0)⟩) := by
    rw [hcast, hblack]
    have h1 := deltaE_ge_abs_dL (rgbToLab (255 : ℝ) 0 0) (rgbToLab (0 : ℝ) 0 0)
    have h2 := black_lab.1
    have h3 := red_bounds.1
    have h4 := le_abs_self ((rgbToLab (255 : ℝ) 0 0).l - (rgbToLab (0 : ℝ) 0 0).l)
    linarith
  have hdwhite : 0 < deltaE2000 lab (labOf ⟨"white", "#FFFFFF", (255, 255, 255)⟩) := by
    rw [hcast, hwhite]
    have h1 := deltaE_ge_abs_dL (rgbToLab (255 : ℝ) 0 0) (rgbToLab (255 : ℝ) 255 255)
    have h2 := white_L_lower
    have h3 := red_bounds.2.1
    have h4 := neg_le_abs ((rgbToLab (255 : ℝ) 0 0).l - (rgbToLab (255 : ℝ) 255 255).l)
    linarith
  have hdred : deltaE2000 lab (labOf ⟨"red", "#FF0000", (255, 0, 0)⟩) = 0 := by
    rw [show labOf ⟨"red", "#FF0000", (255, 0, 0)⟩ = lab from rfl]
    exact deltaE_self lab
  have hsplit : colorNames = ⟨"black", "#000000", (0, 0, 0)⟩ ::
      ⟨"white", "#FFFFFF", (255, 255, 255)⟩ ::
      ⟨"red", "#FF0000", (255, 0, 0)⟩ :: colorNames.drop 3 := rfl
  rw [hsplit]
  simp only [List.foldl_cons]
  rw [show nearestLabStep lab none ⟨"black", "#000000", (0, 0, 0)⟩ =
    some (⟨"black", "#000000", (0, 0, 0)⟩,
      deltaE2000 lab (labOf ⟨"black", "#000000", (0, 0, 0)⟩)) from rfl]
  rw [show nearestLabStep lab
      (some (⟨"black", "#000000", (0, 0, 0)⟩,
        deltaE2000 lab (labOf ⟨"black", "#000000", (0, 0, 0)⟩)))
      ⟨"white", "#FFFFFF", (255, 255, 255)⟩ =
    if deltaE2000 lab (labOf ⟨"white", "#FFFFFF", (255, 255, 255)⟩) <
        deltaE2000 lab (labOf ⟨"black", "#000000", (0, 0, 0)⟩) then
      some (⟨"white", "#FFFFFF", (255, 255, 255)⟩,
        deltaE2000 lab (labOf ⟨"white", "#FFFFFF", (255, 255, 255)⟩))
    else
      some (⟨"black", "#000000", (0, 0, 0)⟩,
        deltaE2000 lab (labOf ⟨"black", "#000000", (0, 0, 0)⟩)) from rfl]
  by_cases hw : deltaE2000 lab (labOf ⟨"white", "#FFFFFF", (255, 255, 255)⟩) <
      deltaE2000 lab (labOf ⟨"black", "#000000", (0, 0, 0)⟩)
  · rw [if_pos hw]
    rw [show nearestLabStep lab
        (some (⟨"white", "#FFFFFF", (255, 255, 255)⟩,
          deltaE2000 lab (labOf ⟨"white", "#FFFFFF", (255, 255, 255)⟩)))
        ⟨"red", "#FF0000", (255, 0, 0)⟩ =
      if deltaE2000 lab (labOf ⟨"red", "#FF0000", (255, 0, 0)⟩) <
          deltaE2000 lab (labOf ⟨"white", "#FFFFFF", (255, 255, 255)⟩) then
        some (⟨"red", "#FF0000", (255, 0, 0)⟩,
          deltaE2000 lab (labOf ⟨"red", "#FF0000", (255, 0, 0)⟩))
      else
        some (⟨"white", "#FFFFFF", (255, 255, 255)⟩,
          deltaE2000 lab (labOf ⟨"white", "#FFFFFF", (255, 255, 255)⟩)) from rfl]
    rw [hdred, if_pos hdwhite, foldl_nearestLab_stay]
  · rw [if_neg hw]
    rw [show nearestLabStep lab
        (some (⟨"black", "#000000", (0, 0, 0)⟩,
          deltaE2000 lab (labOf ⟨"black", "#000000", (0, 0, 0)⟩)))
        ⟨"red", "#FF0000", (255, 0, 0)⟩ =
      if deltaE2000 lab (labOf ⟨"red", "#FF0000", (255, 0, 0)⟩) <
          deltaE2000 lab (labOf ⟨"black", "#000000", (0, 0, 0)⟩) then
        some (⟨"red", "#FF0000", (255, 0, 0)⟩,
          deltaE2000 lab (labOf ⟨"red", "#FF0000", (255, 0, 0)⟩))
      else
        some (⟨"black", "#000000", (0, 0, 0)⟩,
          deltaE2000 lab (labOf ⟨"black", "#000000", (0, 0, 0)⟩)) from rfl]
    rw [hdred, if_pos hdblack, foldl_nearestLab_stay]

end ChromaViews
